import Mathlib

/-!
# Vehicle dynamics of `CarGame` (src/main.js)

A shallow embedding of the physics code of `class CarGame`.

Numbers.  JavaScript numbers are modelled by the elements of a linear ordered
field `α` (exact arithmetic: no rounding, no overflow); every definition is
computable and can be evaluated at `α = ℚ`, and the theorems hold for every
such field, in particular for `ℚ` and `ℝ`.  Where the source can divide by
zero on finite inputs (the slip ratio of the tire model and the Ackermann
geometry) the embedding uses `JSNum α`, which adds the IEEE special values
`NaN`, `+Infinity` and `-Infinity` to `α`.  The statement-by-statement model
of `updateCarPhysics` and the frame time of `animate` are over `JSNum α` as
well: `animate` is first called without an argument, so that `deltaTime` is
`NaN` on the first frames.

Identifiers without a value.  `updateCarPhysics` reads identifiers that have
no value where they are read (`acceleration`, `deltaPosition`, `wheelRPM`,
`aeroDragForce`, `aeroLiftForce`); such a read throws a `ReferenceError`.  The
statement-by-statement model takes what these reads yield from an `Env`;
`sourceEnv` is the source as written, where each of them throws.

Library functions.  `THREE.MathUtils.lerp` and `THREE.MathUtils.clamp` come
from three.js, `Math.min`, `Math.max`, `Math.abs` from the language; they are
embedded by their definitions.  `Math.sin`, `Math.atan`, `Math.tan` and
`Math.atan2` are parameters of the definitions that use them.
-/

namespace CarGame

/-! ## Library functions -/

section Library
variable {α : Type} [LinearOrderedField α]

/-- three.js `MathUtils.lerp(x, y, t)`: `(1 - t) * x + t * y`. -/
def lerp (x y t : α) : α := (1 - t) * x + t * y

/-- three.js `MathUtils.clamp(value, min, max)`:
`Math.max(min, Math.min(max, value))`. -/
def clamp (value lo hi : α) : α := max lo (min hi value)

end Library

/-! ## JavaScript numbers with the IEEE special values -/

/-- A JavaScript number: a finite value, `Infinity`, `-Infinity` or `NaN`.
Finite arithmetic is exact.  Zero carries no sign: a non-zero finite number
divided by zero gives the infinity with the sign of the dividend, which is
the IEEE result for the divisor `+0`. -/
inductive JSNum (α : Type) where
  | fin (v : α)
  | posInf
  | negInf
  | nan
  deriving DecidableEq

namespace JSNum
variable {α : Type} [LinearOrderedField α]

/-- Unary minus. -/
def neg : JSNum α → JSNum α
  | fin v => fin (-v)
  | posInf => negInf
  | negInf => posInf
  | nan => nan

/-- Addition: `Infinity + -Infinity` is `NaN`. -/
def add : JSNum α → JSNum α → JSNum α
  | fin a, fin b => fin (a + b)
  | fin _, posInf => posInf
  | fin _, negInf => negInf
  | posInf, fin _ => posInf
  | negInf, fin _ => negInf
  | posInf, posInf => posInf
  | negInf, negInf => negInf
  | posInf, negInf => nan
  | negInf, posInf => nan
  | nan, _ => nan
  | _, nan => nan

/-- Subtraction. -/
def sub (a b : JSNum α) : JSNum α := add a (neg b)

/-- The infinity with the sign of the non-zero finite value `v`. -/
def infOfSign (v : α) : JSNum α := if 0 < v then posInf else negInf

/-- Multiplication: `0 * Infinity` is `NaN`. -/
def mul : JSNum α → JSNum α → JSNum α
  | fin a, fin b => fin (a * b)
  | fin a, posInf => if a = 0 then nan else infOfSign a
  | fin a, negInf => if a = 0 then nan else infOfSign (-a)
  | posInf, fin b => if b = 0 then nan else infOfSign b
  | negInf, fin b => if b = 0 then nan else infOfSign (-b)
  | posInf, posInf => posInf
  | negInf, negInf => posInf
  | posInf, negInf => negInf
  | negInf, posInf => negInf
  | nan, _ => nan
  | _, nan => nan

/-- Division: `0 / 0` and `Infinity / Infinity` are `NaN`, a non-zero finite
number over zero is an infinity, a finite number over an infinity is zero. -/
def div : JSNum α → JSNum α → JSNum α
  | fin a, fin b =>
    if b = 0 then (if a = 0 then nan else infOfSign a) else fin (a / b)
  | fin _, posInf => fin 0
  | fin _, negInf => fin 0
  | posInf, fin b => if 0 ≤ b then posInf else negInf
  | negInf, fin b => if 0 ≤ b then negInf else posInf
  | posInf, posInf => nan
  | negInf, negInf => nan
  | posInf, negInf => nan
  | negInf, posInf => nan
  | nan, _ => nan
  | _, nan => nan

/-- Function `Math.max` on two arguments: `NaN` when an argument is `NaN`. -/
def max : JSNum α → JSNum α → JSNum α
  | fin a, fin b => fin (Max.max a b)
  | fin _, posInf => posInf
  | fin a, negInf => fin a
  | posInf, fin _ => posInf
  | negInf, fin b => fin b
  | posInf, posInf => posInf
  | negInf, negInf => negInf
  | posInf, negInf => posInf
  | negInf, posInf => posInf
  | nan, _ => nan
  | _, nan => nan

/-- Function `Math.min` on two arguments: `NaN` when an argument is `NaN`. -/
def min : JSNum α → JSNum α → JSNum α
  | fin a, fin b => fin (Min.min a b)
  | fin a, posInf => fin a
  | fin _, negInf => negInf
  | posInf, fin b => fin b
  | negInf, fin _ => negInf
  | posInf, posInf => posInf
  | negInf, negInf => negInf
  | posInf, negInf => negInf
  | negInf, posInf => negInf
  | nan, _ => nan
  | _, nan => nan

/-- three.js `MathUtils.clamp(value, min, max)` on JavaScript numbers:
`Math.max(min, Math.min(max, value))`. -/
def clamp (value lo hi : JSNum α) : JSNum α := max lo (min hi value)

/-- The number is finite (neither an infinity nor `NaN`). -/
def IsFinite : JSNum α → Prop
  | fin _ => True
  | _ => False

/-- The comparison `Math.abs(x) <= bound` for a finite `bound`; it is false
for `NaN`, as every comparison with `NaN` is, and for the infinities. -/
def AbsLe : JSNum α → α → Prop
  | fin v, bound => |v| ≤ bound
  | _, _ => False

instance (x : JSNum α) : Decidable (IsFinite x) := by
  cases x <;> unfold IsFinite <;> infer_instance

instance (x : JSNum α) (bound : α) : Decidable (AbsLe x bound) := by
  cases x <;> unfold AbsLe <;> infer_instance

/-- The comparison `a < b` of JavaScript: false when an operand is `NaN`. -/
def Lt : JSNum α → JSNum α → Prop
  | fin a, fin b => a < b
  | fin _, posInf => True
  | negInf, fin _ => True
  | negInf, posInf => True
  | _, _ => False

/-- The comparison `a <= b` of JavaScript: false when an operand is `NaN`. -/
def Le : JSNum α → JSNum α → Prop
  | fin a, fin b => a ≤ b
  | fin _, posInf => True
  | negInf, fin _ => True
  | negInf, posInf => True
  | posInf, posInf => True
  | negInf, negInf => True
  | _, _ => False

instance (a b : JSNum α) : Decidable (Lt a b) := by
  cases a <;> cases b <;> unfold Lt <;> infer_instance

instance (a b : JSNum α) : Decidable (Le a b) := by
  cases a <;> cases b <;> unfold Le <;> infer_instance

end JSNum

/-- The functions of JavaScript's `Math` object that the physics calls on
finite arguments, and the constant `Math.PI / 2`. -/
structure JSMath (α : Type) where
  sin : α → α
  tan : α → α
  atan : α → α
  atan2 : α → α → α
  halfPi : α

namespace JSMath
variable {α : Type} [LinearOrderedField α]

/-- Function `Math.sin`: `NaN` at the infinities and at `NaN`. -/
def sinJS (m : JSMath α) : JSNum α → JSNum α
  | .fin v => .fin (m.sin v)
  | _ => .nan

/-- Function `Math.tan`: `NaN` at the infinities and at `NaN`. -/
def tanJS (m : JSMath α) : JSNum α → JSNum α
  | .fin v => .fin (m.tan v)
  | _ => .nan

/-- Function `Math.atan`: `±Math.PI / 2` at the infinities, `NaN` at `NaN`. -/
def atanJS (m : JSMath α) : JSNum α → JSNum α
  | .fin v => .fin (m.atan v)
  | .posInf => .fin m.halfPi
  | .negInf => .fin (-m.halfPi)
  | .nan => .nan

end JSMath

/-! ## Data model (constructor, lines 8-67) -/

/-- A `THREE.Vector3` (also used for the `x, y, z` of a `THREE.Euler`). -/
structure Vec3 (α : Type) where
  x : α
  y : α
  z : α
  deriving DecidableEq, Repr

/-- Field `this.keys`. -/
structure Keys where
  W : Bool
  A : Bool
  S : Bool
  D : Bool
  Space : Bool
  deriving DecidableEq, Repr

/-- Field `this.physics` (lines 21-52); `currentGear` and `engineRPM` are the
two fields that `updateCarPhysics` assigns.  The field `maxSteer`
(`Math.PI / 4`, line 30) is a parameter of the definitions that read it. -/
structure Physics (α : Type) where
  engineForce : α
  brakeForce : α
  maxReverseSpeed : α
  dragCoefficient : α
  rollingResistance : α
  wheelRadius : α
  steeringClamp : α
  steeringStep : α
  weight : α
  gearRatio : List α
  currentGear : Int
  engineRPM : α
  maxRPM : α
  suspensionStiffness : α
  suspensionRestLength : α
  suspensionTravel : α
  wheelDamping : α
  axleTrack : α
  wheelBase : α
  aeroDrag : α
  aeroLift : α
  torqueCurve : List (α × α)
  slipAngle : α
  tireGrip : α
  deriving DecidableEq

/-- Field `this.carState` (lines 54-67).  The arrays `slipRatios` and
`slipAngles` are never assigned after construction and are read only by
lines 635-636; `localVelocity` and `tireForces` (lines 63, 66) are never read
and are left out. -/
structure CarState (α : Type) where
  velocity : Vec3 α
  angularVelocity : Vec3 α
  engineTorque : α
  brakeTorque : α
  steering : α
  wheelAngles : List α
  suspensionLengths : List α
  wheelForces : List (Vec3 α)
  slipRatios : List α
  slipAngles : List α
  deriving DecidableEq

/-- The part of a `CarGame` object that the physics, the key handlers,
`resetCar` and `animate` read or write.  `carRoot` is `none` until the model
has been loaded (line 334); afterwards it holds the position and the rotation
of the `THREE.Object3D`.  The fields `speed`, `acceleration` and `steering`
are the ones of lines 14-16, distinct from `carState.steering`. -/
structure Game (α : Type) where
  initialPosition : Vec3 α
  initialRotation : Vec3 α
  speed : α
  acceleration : α
  steering : α
  lastTime : α
  keys : Keys
  physics : Physics α
  carState : CarState α
  carRoot : Option (Vec3 α × Vec3 α)
  deriving DecidableEq

section Model
variable {α : Type} [LinearOrderedField α]

/-- The torque curve of line 44. -/
def defaultTorqueCurve : List (α × α) :=
  [(0, 0), (1500, 280), (4500, 420), (6500, 390)]

/-- The value of `this.physics` after the constructor (lines 21-52). -/
def defaultPhysics : Physics α where
  engineForce := 3000
  brakeForce := 4500
  maxReverseSpeed := -15
  dragCoefficient := 0.4
  rollingResistance := 12
  wheelRadius := 0.35
  steeringClamp := 0.45
  steeringStep := 0.04
  weight := 1500
  gearRatio := [3.67, 2.10, 1.36, 1.03, 0.84]
  currentGear := 1
  engineRPM := 1000
  maxRPM := 6500
  suspensionStiffness := 30
  suspensionRestLength := 0.3
  suspensionTravel := 0.2
  wheelDamping := 2.3
  axleTrack := 1.7
  wheelBase := 2.6
  aeroDrag := 2.5
  aeroLift := 2.0
  torqueCurve := defaultTorqueCurve
  slipAngle := 0.15
  tireGrip := 2.2

/-- The value of `this.carState` after the constructor (lines 54-67). -/
def initialCarState : CarState α where
  velocity := ⟨0, 0, 0⟩
  angularVelocity := ⟨0, 0, 0⟩
  engineTorque := 0
  brakeTorque := 0
  steering := 0
  wheelAngles := [0, 0, 0, 0]
  suspensionLengths := List.replicate 4 (0.3 : α)
  wheelForces := List.replicate 4 ⟨0, 0, 0⟩
  slipRatios := List.replicate 4 0
  slipAngles := List.replicate 4 0

/-- The object after the constructor, before the car model is loaded. -/
def initialGame : Game α where
  initialPosition := ⟨10, 0, 0⟩
  initialRotation := ⟨0, 0, 0⟩
  speed := 0
  acceleration := 0
  steering := 0
  lastTime := 0
  keys := ⟨false, false, false, false, false⟩
  physics := defaultPhysics
  carState := initialCarState
  carRoot := none

/-- The object once `loadCar` has created `carRoot` at the initial pose
(lines 334-341). -/
def loadedGame : Game α :=
  { (initialGame : Game α) with carRoot := some (⟨10, 0, 0⟩, ⟨0, 0, 0⟩) }

/-! ## Engine torque (lines 472-490) -/

/-- Line 473: `this.keys.W ? 1 : 0`. -/
def throttleInput (keys : Keys) : α := if keys.W then 1 else 0

/-- Line 474: `this.keys.S || this.keys.Space ? 1 : 0`. -/
def brakeInput (keys : Keys) : α := if keys.S || keys.Space then 1 else 0

/-- The loop of lines 478-487 over the remaining segments of the curve: the
first segment whose RPM range contains `engineRPM` gives the interpolated
torque and ends the loop; when no segment matches, `engineTorque` keeps its
initial value `0`. -/
def torqueLoop : List (α × α) → α → α
  | p :: q :: rest, engineRPM =>
    if p.1 ≤ engineRPM ∧ engineRPM ≤ q.1 then
      lerp p.2 q.2 ((engineRPM - p.1) / (q.1 - p.1))
    else torqueLoop (q :: rest) engineRPM
  | _, _ => 0

/-- Line 490: `effectiveTorque = engineTorque * throttleInput`. -/
def effectiveTorque (torquePoints : List (α × α)) (engineRPM : α) (keys : Keys) : α :=
  torqueLoop torquePoints engineRPM * throttleInput keys

/-! ## Drivetrain: RPM feedback and gear shifting (lines 616-629, 714-729) -/

/-- Line 616: `currentWheelRPM`, a constant that no later line reads. -/
def currentWheelRPM (ph : Physics α) (velocity : Vec3 α) : α :=
  (velocity.z / (ph.wheelRadius * 50)) * 9.5493

/-- Line 715: `calculatedWheelRPM`, a constant that no later line reads. -/
def calculatedWheelRPM (ph : Physics α) (velocity : Vec3 α) : α :=
  (velocity.z / ph.wheelRadius) * 9.5493

/-- `this.physics.gearRatio[this.physics.currentGear - 1]` (lines 494, 618,
717): `none` when the index is outside the sequence. -/
def currentGearRatio (ph : Physics α) : Option α :=
  if 1 ≤ ph.currentGear then ph.gearRatio[(ph.currentGear - 1).toNat]? else none

/-- Lines 623-629, the first gear-shift block: up-shift above 6000 RPM below
gear 5 (RPM becomes 4000), down-shift below 2000 RPM above gear 1 (RPM
becomes 3000). -/
def shiftGearsFirst (ph : Physics α) : Physics α :=
  if ph.engineRPM > 6000 ∧ ph.currentGear < 5 then
    { ph with currentGear := ph.currentGear + 1, engineRPM := 4000 }
  else if ph.engineRPM < 2000 ∧ ph.currentGear > 1 then
    { ph with currentGear := ph.currentGear - 1, engineRPM := 3000 }
  else ph

/-- Lines 722-729, the gear-shift block that ends `updateCarPhysics`:
up-shift above 6000 RPM below gear 5 (RPM becomes 3000), down-shift below
2000 RPM above gear 1 (RPM becomes 4000). -/
def shiftGears (ph : Physics α) : Physics α :=
  if ph.engineRPM > 6000 ∧ ph.currentGear < 5 then
    { ph with currentGear := ph.currentGear + 1, engineRPM := 3000 }
  else if ph.engineRPM < 2000 ∧ ph.currentGear > 1 then
    { ph with currentGear := ph.currentGear - 1, engineRPM := 4000 }
  else ph

/-! ## Wheel force, suspension and tire model (lines 489-550) -/

/-- Lines 490-496: `wheelForce`, from the effective torque, the brake force
and the ratio of the current gear (`none` when the gear index is outside the
sequence).  The divisor `wheelRadius` is the constant `0.35` of the
constructor. -/
def wheelForce (ph : Physics α) (keys : Keys) : Option α :=
  (currentGearRatio ph).map fun effectiveGearRatio =>
    ((effectiveTorque ph.torqueCurve ph.engineRPM keys - ph.brakeForce * brakeInput keys)
      * effectiveGearRatio) / ph.wheelRadius

/-- Lines 516-525, the body of the suspension loop for one wheel, from the
wheel's `suspensionLengths[i]` and `wheelForces[i].y`. -/
def suspensionForce (ph : Physics α) (suspensionLength wheelForceY : α) : α :=
  max (ph.suspensionStiffness
        * clamp (ph.suspensionRestLength - suspensionLength) 0 ph.suspensionTravel
      - ph.wheelDamping * wheelForceY) 0

/-- Lines 514-526: the array `suspensionForces`, for the four wheels of the
two 4-element arrays of `carState`. -/
def suspensionForces (ph : Physics α) (cs : CarState α) : List α :=
  (List.zipWith (fun len wf => suspensionForce ph len wf.y)
    cs.suspensionLengths cs.wheelForces).take 4

/-- Lines 531-536: `slipRatio` of one wheel.  The quotient is taken without
a test of the divisor. -/
def slipRatio (ph : Physics α) (wheelForce suspensionForce : α) : JSNum α :=
  JSNum.clamp
    (JSNum.div (.fin (wheelForce - suspensionForce * ph.tireGrip))
      (.fin (suspensionForce * ph.tireGrip)))
    (.fin (-1)) (.fin 1)

/-- Lines 538-541: `slipAngle`. -/
def slipAngle (m : JSMath α) (velocity : Vec3 α) : α :=
  m.atan2 velocity.x |velocity.z|

/-- Lines 543-544: `longitudinalForce` of one wheel. -/
def longitudinalForce (m : JSMath α) (ph : Physics α) (wheelForce suspensionForce : α) :
    JSNum α :=
  JSNum.mul
    (JSNum.mul
      (m.sinJS (m.atanJS (JSNum.mul (.fin 3) (slipRatio ph wheelForce suspensionForce))))
      (.fin ph.tireGrip))
    (.fin suspensionForce)

/-- Lines 546-547: `lateralForce` of one wheel. -/
def lateralForce (m : JSMath α) (ph : Physics α) (velocity : Vec3 α) (suspensionForce : α) :
    JSNum α :=
  JSNum.mul
    (JSNum.mul
      (JSNum.neg (m.sinJS (m.atanJS (JSNum.mul (.fin 3) (.fin (slipAngle m velocity))))))
      (.fin ph.tireGrip))
    (.fin suspensionForce)

/-- Lines 529-550: the array `tireForces`, one vector
`(lateralForce, 0, longitudinalForce)` per wheel. -/
def tireForces (m : JSMath α) (ph : Physics α) (velocity : Vec3 α) (wheelForce : α)
    (suspensionForces : List α) : List (Vec3 (JSNum α)) :=
  suspensionForces.map fun sf =>
    ⟨lateralForce m ph velocity sf, .fin 0, longitudinalForce m ph wheelForce sf⟩

/-! ## Ackermann geometry (lines 666-681) -/

/-- Lines 667-671: `steerAngle`; `maxSteer` is `Math.PI / 4`. -/
def steerAngle (maxSteer steering : α) : α := clamp steering (-maxSteer) maxSteer

/-- Lines 673-676: `leftSteer`.  The quotients are taken without a test of
the divisors. -/
def leftSteer (m : JSMath α) (maxSteer : α) (ph : Physics α) (steering : α) : JSNum α :=
  m.atanJS
    (JSNum.div (.fin ph.wheelBase)
      (JSNum.sub
        (JSNum.div (.fin ph.wheelBase) (m.tanJS (.fin (steerAngle maxSteer steering))))
        (.fin (ph.axleTrack / 2))))

/-- Lines 678-681: `rightSteer`.  The quotients are taken without a test of
the divisors. -/
def rightSteer (m : JSMath α) (maxSteer : α) (ph : Physics α) (steering : α) : JSNum α :=
  m.atanJS
    (JSNum.div (.fin ph.wheelBase)
      (JSNum.add
        (JSNum.div (.fin ph.wheelBase) (m.tanJS (.fin (steerAngle maxSteer steering))))
        (.fin (ph.axleTrack / 2))))

/-! ## Steering (lines 571-577) and the key handlers (lines 413-431, 732-781) -/

/-- Line 571: `(this.keys.A ? 1 : 0) - (this.keys.D ? 1 : 0)`. -/
def steerInput (keys : Keys) : α :=
  (if keys.A then 1 else 0) - (if keys.D then 1 else 0)

/-- Line 572: `1 - clamp(speed / 30, 0, 0.8)`. -/
def speedFactor (speed : α) : α := 1 - clamp (speed / 30) 0 0.8

/-- Lines 573-577: the new value of `carState.steering` in a tick; `speed` is
the constant of line 557. -/
def steeringUpdate (ph : Physics α) (steering : α) (keys : Keys) (speed : α) : α :=
  clamp (steering + steerInput keys * ph.steeringStep * speedFactor speed)
    (-ph.steeringClamp) ph.steeringClamp

/-- Assignment to `this.carState.engineTorque`. -/
def setEngineTorque (g : Game α) (v : α) : Game α :=
  { g with carState := { g.carState with engineTorque := v } }

/-- Assignment to `this.carState.brakeTorque`. -/
def setBrakeTorque (g : Game α) (v : α) : Game α :=
  { g with carState := { g.carState with brakeTorque := v } }

/-- Assignment to `this.carState.steering`. -/
def setSteering (g : Game α) (v : α) : Game α :=
  { g with carState := { g.carState with steering := v } }

/-- Lines 571-577 as a step on the object. -/
def steeringTick (g : Game α) (speed : α) : Game α :=
  setSteering g (steeringUpdate g.physics g.carState.steering g.keys speed)

/-- Lines 433-441, `resetCar`. -/
def resetCar (g : Game α) : Game α :=
  match g.carRoot with
  | some _ =>
    { g with
      carRoot := some (g.initialPosition, g.initialRotation),
      speed := 0,
      acceleration := 0,
      steering := 0 }
  | none => g

/-- The writes of lines 414-418 to `this.keys`, in order. -/
def keysDownFirst (keys : Keys) (key : String) : Keys :=
  let k1 := if key.toLower = "s" then { keys with S := true } else keys
  let k2 := if key.toLower = "a" then { k1 with A := true } else k1
  let k3 := if key.toLower = "w" then { k2 with W := true } else k2
  let k4 := if key.toLower = "d" then { k3 with D := true } else k3
  if key = " " then { k4 with Space := true } else k4

/-- Lines 413-423, the first `handleKeyDown` of the class body; the second
definition (line 732) replaces it.  `toggleDebugMode` and `toggleCameraMode`
write fields that are not part of `Game`. -/
def handleKeyDownFirst (g : Game α) (key : String) : Game α :=
  if key.toLower = "r" then resetCar { g with keys := keysDownFirst g.keys key }
  else { g with keys := keysDownFirst g.keys key }

/-- The writes of lines 426-430 to `this.keys`, in order. -/
def keysUpFirst (keys : Keys) (key : String) : Keys :=
  let k1 := if key.toLower = "s" then { keys with S := false } else keys
  let k2 := if key.toLower = "a" then { k1 with A := false } else k1
  let k3 := if key.toLower = "w" then { k2 with W := false } else k2
  let k4 := if key.toLower = "d" then { k3 with D := false } else k3
  if key = " " then { k4 with Space := false } else k4

/-- Lines 425-431, the first `handleKeyUp` of the class body; the second
definition (line 763) replaces it. -/
def handleKeyUpFirst (g : Game α) (key : String) : Game α :=
  { g with keys := keysUpFirst g.keys key }

/-- Lines 735-740 (`rate` is `0.1`). -/
def keyDownThrottle (g : Game α) (key : String) : Game α :=
  if key = "w" then setEngineTorque g (min (g.carState.engineTorque + 0.1) 1) else g

/-- Lines 741-746 (`rate` is `0.1`). -/
def keyDownBrake (g : Game α) (key : String) : Game α :=
  if key = "s" then setBrakeTorque g (min (g.carState.brakeTorque + 0.1) 1) else g

/-- Lines 747-753. -/
def keyDownSteerLeft (g : Game α) (key : String) : Game α :=
  if key = "a" then
    setSteering g (clamp (g.carState.steering + g.physics.steeringStep)
      (-g.physics.steeringClamp) g.physics.steeringClamp)
  else g

/-- Lines 754-760. -/
def keyDownSteerRight (g : Game α) (key : String) : Game α :=
  if key = "d" then
    setSteering g (clamp (g.carState.steering - g.physics.steeringStep)
      (-g.physics.steeringClamp) g.physics.steeringClamp)
  else g

/-- Lines 732-761, the `handleKeyDown` in force (the later of the two
definitions of the class body): its four `if` statements in order. -/
def handleKeyDown (g : Game α) (key : String) : Game α :=
  keyDownSteerRight (keyDownSteerLeft (keyDownBrake (keyDownThrottle g key) key) key) key

/-- Lines 778-779: `steering *= 0.8`, then `0` when the magnitude is below
`0.01`. -/
def steeringDecay (steering : α) : α :=
  if |steering * 0.8| < 0.01 then 0 else steering * 0.8

/-- Lines 765-770 (`rate` is `0.2`). -/
def keyUpThrottle (g : Game α) (key : String) : Game α :=
  if key = "w" then setEngineTorque g (max (g.carState.engineTorque - 0.2) 0) else g

/-- Lines 771-776 (`rate` is `0.2`). -/
def keyUpBrake (g : Game α) (key : String) : Game α :=
  if key = "s" then setBrakeTorque g (max (g.carState.brakeTorque - 0.2) 0) else g

/-- Lines 777-780. -/
def keyUpSteer (g : Game α) (key : String) : Game α :=
  if key = "a" ∨ key = "d" then setSteering g (steeringDecay g.carState.steering) else g

/-- Lines 763-781, the `handleKeyUp` in force (the later of the two
definitions of the class body): its three `if` statements in order. -/
def handleKeyUp (g : Game α) (key : String) : Game α :=
  keyUpSteer (keyUpBrake (keyUpThrottle g key) key) key

/-- The steering angle of the object lies within the steering clamp. -/
def SteeringInRange (g : Game α) : Prop :=
  -g.physics.steeringClamp ≤ g.carState.steering ∧
    g.carState.steering ≤ g.physics.steeringClamp

/-- An operation that can write `carState.steering`: the steering lines of a
tick (with the value of the constant `speed`), a key-down event and a key-up
event (handlers in force). -/
inductive SteeringOp (α : Type) where
  | tick (speed : α)
  | keyDown (key : String)
  | keyUp (key : String)

/-- One steering operation applied to the object. -/
def applySteeringOp (g : Game α) : SteeringOp α → Game α
  | .tick speed => steeringTick g speed
  | .keyDown key => handleKeyDown g key
  | .keyUp key => handleKeyUp g key

/-- A sequence of steering operations applied in order. -/
def applySteeringOps (g : Game α) (ops : List (SteeringOp α)) : Game α :=
  ops.foldl applySteeringOp g

/-! ## The physics step and the frame callback (lines 469-730, 860-867) -/

/-- The way a call ends: the object as the call leaves it, and the error
thrown, if any. -/
structure Outcome (α : Type) where
  game : Game α
  thrown : Option String
  deriving DecidableEq

set_option linter.unusedVariables false in
/-- Lines 469-730, `updateCarPhysics(deltaTime)`.  Line 470 returns when
`carRoot` is not set.  Lines 472-561 assign local constants only (among them
the values embedded by `wheelForce`, `suspensionForces` and `tireForces`) and
write no field of the object.  Line 562 reads `acceleration`, which the same
function body declares by `const` on line 658 and which has no value yet: the
read throws a `ReferenceError` before `velocity.add` is called, so that the
call ends there with the object as it was, and lines 563-729 are not
reached. -/
def updateCarPhysics (g : Game α) (deltaTime : α) : Outcome α :=
  match g.carRoot with
  | none => ⟨g, none⟩
  | some _ => ⟨g, some "ReferenceError: acceleration"⟩

/-! ## Velocity damping (lines 565-568, 661-664) -/

/-- three.js `Vector3.multiplyScalar(s)`. -/
def Vec3.multiplyScalar (v : Vec3 α) (s : α) : Vec3 α := ⟨v.x * s, v.y * s, v.z * s⟩

/-- Lines 566-567, the factor of the first damping step:
`1 - (rollingResistance * 0.1 + dragCoefficient * speed * 0.01) * deltaTime`,
where `speed` is the constant of line 557 (`velocity.length()`, taken before
line 562). -/
def dampingFactorFirst (ph : Physics α) (speed deltaTime : α) : α :=
  1 - (ph.rollingResistance * 0.1 + ph.dragCoefficient * speed * 0.01) * deltaTime

/-- Lines 565-568: the first damping step on `carState.velocity`. -/
def dampVelocityFirst (ph : Physics α) (velocity : Vec3 α) (speed deltaTime : α) : Vec3 α :=
  velocity.multiplyScalar (dampingFactorFirst ph speed deltaTime)

/-- Line 663, the factor of the second damping step:
`1 - (rollingResistance + dragCoefficient) * deltaTime`. -/
def dampingFactor (ph : Physics α) (deltaTime : α) : α :=
  1 - (ph.rollingResistance + ph.dragCoefficient) * deltaTime

/-- Lines 661-664: the second damping step on `carState.velocity`. -/
def dampVelocity (ph : Physics α) (velocity : Vec3 α) (deltaTime : α) : Vec3 α :=
  velocity.multiplyScalar (dampingFactor ph deltaTime)

/-! ## Yaw (lines 580-584) -/

/-- Lines 580-584: `angularAcceleration`, from the tire forces of the four
wheels alone (`none` when the array has fewer than four entries);
`divideScalar(s)` of three.js is `multiplyScalar(1 / s)`. -/
def angularAcceleration (ph : Physics α) (tireForces : List (Vec3 (JSNum α))) :
    Option (Vec3 (JSNum α)) :=
  match tireForces with
  | t0 :: t1 :: t2 :: t3 :: _ =>
    some
      ⟨JSNum.mul
          (JSNum.mul (JSNum.mul (JSNum.sub t2.z t3.z) (.fin ph.axleTrack)) (.fin 0.5))
          (JSNum.div (.fin 1) (.fin (ph.weight * 0.3))),
        JSNum.mul (.fin 0) (JSNum.div (.fin 1) (.fin (ph.weight * 0.3))),
        JSNum.mul
          (JSNum.mul (JSNum.mul (JSNum.sub t0.x t1.x) (.fin ph.wheelBase)) (.fin 0.5))
          (JSNum.div (.fin 1) (.fin (ph.weight * 0.3)))⟩
  | _ => none

/-! ## Sequences of ticks and of key events -/

/-- One physics step of a frame, keeping the object as the call leaves it.
An error thrown by the step ends that frame's callback only: line 861 has
requested the next frame before. -/
def tick (g : Game α) (deltaTime : α) : Game α := (updateCarPhysics g deltaTime).game

/-- The object after `n` ticks with the same `deltaTime`. -/
def runTicks : Nat → Game α → α → Game α
  | 0, g, _ => g
  | n + 1, g, deltaTime => runTicks n (tick g deltaTime) deltaTime

/-- A keyboard event with its `e.key`. -/
inductive KeyEvent where
  | down (key : String)
  | up (key : String)

/-- The handler in force for a keyboard event (listeners of lines 377-378). -/
def applyKeyEvent (g : Game α) : KeyEvent → Game α
  | .down key => handleKeyDown g key
  | .up key => handleKeyUp g key

/-- A sequence of keyboard events handled in order. -/
def applyKeyEvents (g : Game α) (events : List KeyEvent) : Game α :=
  events.foldl applyKeyEvent g

/-- The object with the three fields that the key handlers in force assign
(`carState.engineTorque`, `carState.brakeTorque`, `carState.steering`) set to
zero: two objects with the same image differ in these fields at most. -/
def withoutInputFields (g : Game α) : Game α :=
  setSteering (setBrakeTorque (setEngineTorque g 0) 0) 0

/-! ## The statements of `updateCarPhysics` in order (lines 469-730)

The entry state is an object with finite numbers; the values that the
statements assign are JavaScript numbers. -/

/-- What the statements of `updateCarPhysics` read from outside the object:
the functions of `Math`, `Math.sqrt` on finite arguments, the field
`physics.maxSteer`, whether the loaded model has a child whose name contains
`wheel`, and, for each identifier that has no value where the source reads
it, what the read yields.  `none` stands for a read that throws a
`ReferenceError`, which is the case of every one of them in the source:
`acceleration` (line 562) and `deltaPosition` (line 601) are declared by
`const` further down in the same body (lines 658, 688), and `wheelRPM`
(lines 618, 717), `aeroDragForce` and `aeroLiftForce` (lines 654-655) are
declared nowhere.  A value other than `none` describes the statements after
the read, which the source never reaches. -/
structure Env (α : Type) where
  math : JSMath α
  sqrt : α → α
  maxSteer : α
  wheelChild : Bool
  acceleration : Option (Vec3 (JSNum α))
  deltaPosition : Option (Vec3 (JSNum α))
  wheelRPM : Option (JSNum α)
  aeroDragForce : Option (JSNum α)
  aeroLiftForce : Option (JSNum α)

/-- The reads as the source has them: every one throws. -/
def sourceEnv (math : JSMath α) (sqrt : α → α) (maxSteer : α) (wheelChild : Bool) : Env α where
  math := math
  sqrt := sqrt
  maxSteer := maxSteer
  wheelChild := wheelChild
  acceleration := none
  deltaPosition := none
  wheelRPM := none
  aeroDragForce := none
  aeroLiftForce := none

/-- A vector of finite numbers as a vector of JavaScript numbers. -/
def Vec3.toJS (v : Vec3 α) : Vec3 (JSNum α) := ⟨.fin v.x, .fin v.y, .fin v.z⟩

/-- three.js `Vector3.add(v)` on JavaScript numbers. -/
def Vec3.addJS (a b : Vec3 (JSNum α)) : Vec3 (JSNum α) :=
  ⟨JSNum.add a.x b.x, JSNum.add a.y b.y, JSNum.add a.z b.z⟩

/-- three.js `Vector3.multiplyScalar(s)` on JavaScript numbers. -/
def Vec3.multiplyScalarJS (v : Vec3 (JSNum α)) (s : JSNum α) : Vec3 (JSNum α) :=
  ⟨JSNum.mul v.x s, JSNum.mul v.y s, JSNum.mul v.z s⟩

/-- The fields of the object that `updateCarPhysics` assigns:
`carState.velocity`, `carState.angularVelocity`, `carState.steering`,
`carState.wheelAngles`, `carRoot.position` and `carRoot.rotation` (absent
while `carRoot` is not set), `physics.currentGear` and `physics.engineRPM`.
The steering angle stays finite: its new value (line 573) is a clamp of
finite numbers. -/
structure Written (α : Type) where
  velocity : Vec3 (JSNum α)
  angularVelocity : Vec3 (JSNum α)
  steering : α
  wheelAngles : List (JSNum α)
  pose : Option (Vec3 (JSNum α) × Vec3 (JSNum α))
  currentGear : Int
  engineRPM : JSNum α

/-- The assigned fields as the object has them when the call starts. -/
def Written.init (g : Game α) : Written α where
  velocity := g.carState.velocity.toJS
  angularVelocity := g.carState.angularVelocity.toJS
  steering := g.carState.steering
  wheelAngles := g.carState.wheelAngles.map JSNum.fin
  pose := g.carRoot.map fun p => (p.1.toJS, p.2.toJS)
  currentGear := g.physics.currentGear
  engineRPM := .fin g.physics.engineRPM

/-- The assigned fields with other values of `steering` and `wheelAngles`. -/
def Written.setSteer (w : Written α) (steering : α) (wheelAngles : List (JSNum α)) :
    Written α :=
  { w with steering := steering, wheelAngles := wheelAngles }

/-- The way a run of statements ends: the assigned fields as it leaves them,
and the error thrown, if any. -/
structure StepResult (α : Type) where
  written : Written α
  thrown : Option String

/-- Sequencing: the statements `next` run unless an error has been thrown. -/
def StepResult.andThen (r : StepResult α) (next : Written α → StepResult α) : StepResult α :=
  match r.thrown with
  | none => next r.written
  | some _ => r

/-- Line 557: `speed = velocity.length()`, from the velocity at the start of
the call. -/
def speedOf (env : Env α) (velocity : Vec3 α) : α :=
  env.sqrt (velocity.x * velocity.x + velocity.y * velocity.y + velocity.z * velocity.z)

/-- Lines 472-550: the array `tireForces` of the call.  When the gear index
is outside the gear-ratio sequence, the ratio is `undefined`, the wheel
force is `NaN` and so is every longitudinal force. -/
def tireForcesOf (env : Env α) (g : Game α) : List (Vec3 (JSNum α)) :=
  match wheelForce g.physics g.keys with
  | some wf =>
    tireForces env.math g.physics g.carState.velocity wf
      (suspensionForces g.physics g.carState)
  | none =>
    (suspensionForces g.physics g.carState).map fun sf =>
      ⟨lateralForce env.math g.physics g.carState.velocity sf, .fin 0, .nan⟩

/-- Lines 553-559: `totalForce`, the sum of the tire forces less the
aerodynamic terms in `z` and `y`. -/
def totalForce (ph : Physics α) (tireForces : List (Vec3 (JSNum α))) (speed : α) :
    Vec3 (JSNum α) :=
  ⟨(tireForces.foldl Vec3.addJS ⟨.fin 0, .fin 0, .fin 0⟩).x,
    JSNum.sub (tireForces.foldl Vec3.addJS ⟨.fin 0, .fin 0, .fin 0⟩).y
      (.fin (0.5 * ph.aeroLift * speed * speed)),
    JSNum.sub (tireForces.foldl Vec3.addJS ⟨.fin 0, .fin 0, .fin 0⟩).z
      (.fin (0.5 * ph.aeroDrag * speed * speed))⟩

/-- Line 561: `carAcceleration = totalForce.divideScalar(weight)`; the call
changes `totalForce` itself (`divideScalar(s)` is `multiplyScalar(1 / s)`). -/
def carAcceleration (ph : Physics α) (tireForces : List (Vec3 (JSNum α))) (speed : α) :
    Vec3 (JSNum α) :=
  (totalForce ph tireForces speed).multiplyScalarJS (JSNum.div (.fin 1) (.fin ph.weight))

/-- Line 658: `acceleration = totalForce.divideScalar(weight)`, on the
`totalForce` that line 561 has divided already. -/
def accelerationSecond (ph : Physics α) (tireForces : List (Vec3 (JSNum α))) (speed : α) :
    Vec3 (JSNum α) :=
  (carAcceleration ph tireForces speed).multiplyScalarJS
    (JSNum.div (.fin 1) (.fin ph.weight))

/-- Lines 562 and 659: `velocity.add(acceleration.multiplyScalar(deltaTime))`. -/
def addAcceleration (acceleration : Vec3 (JSNum α)) (deltaTime : JSNum α) (w : Written α) :
    Written α :=
  { w with velocity := (w.velocity.addJS (acceleration.multiplyScalarJS deltaTime)) }

/-- Lines 565-568 for a `deltaTime` that is a JavaScript number. -/
def dampFirst (ph : Physics α) (speed : α) (deltaTime : JSNum α) (w : Written α) :
    Written α :=
  { w with velocity := (w.velocity.multiplyScalarJS
      (JSNum.sub (.fin 1)
        (JSNum.mul (.fin (ph.rollingResistance * 0.1 + ph.dragCoefficient * speed * 0.01))
          deltaTime))) }

/-- Lines 571-577: the steering lines, on the assigned fields. -/
def steer (ph : Physics α) (keys : Keys) (speed : α) (w : Written α) : Written α :=
  { w with steering := (steeringUpdate ph w.steering keys speed) }

/-- Lines 586-587 and 698-699: `angularVelocity.add(step)` followed by
`angularVelocity.multiplyScalar(damping)`, where `step` is
`angularAcceleration.multiplyScalar(deltaTime)`. -/
def addAngular (step : Vec3 (JSNum α)) (damping : α) (w : Written α) : Written α :=
  { w with angularVelocity :=
      (w.angularVelocity.addJS step).multiplyScalarJS (.fin damping) }

/-- Lines 590-591 and 688-689:
`carRoot.position.add(velocity.clone().multiplyScalar(deltaTime))`. -/
def movePosition (deltaTime : JSNum α) (w : Written α) : Written α :=
  { w with pose := (w.pose.map fun p =>
      (p.1.addJS (w.velocity.multiplyScalarJS deltaTime), p.2)) }

/-- Lines 593-596: the rotation gains `angularDelta.x * 0.5`, `angularDelta.y`
and `angularDelta.z * 0.5`, with
`angularDelta = angularVelocity.clone().multiplyScalar(deltaTime)`. -/
def rotateFirst (deltaTime : JSNum α) (w : Written α) : Written α :=
  { w with pose := (w.pose.map fun p =>
      (p.1,
        ⟨JSNum.add p.2.x
            (JSNum.mul (w.angularVelocity.multiplyScalarJS deltaTime).x (.fin 0.5)),
          JSNum.add p.2.y (w.angularVelocity.multiplyScalarJS deltaTime).y,
          JSNum.add p.2.z
            (JSNum.mul (w.angularVelocity.multiplyScalarJS deltaTime).z (.fin 0.5))⟩)) }

/-- Lines 701-704: the rotation gains `deltaRotation`, with
`deltaRotation = angularVelocity.clone().multiplyScalar(deltaTime)`. -/
def rotate (deltaTime : JSNum α) (w : Written α) : Written α :=
  { w with pose := (w.pose.map fun p =>
      (p.1, p.2.addJS (w.angularVelocity.multiplyScalarJS deltaTime))) }

/-- Lines 662-664 for a `deltaTime` that is a JavaScript number. -/
def damp (ph : Physics α) (deltaTime : JSNum α) (w : Written α) : Written α :=
  { w with velocity := (w.velocity.multiplyScalarJS
      (JSNum.sub (.fin 1)
        (JSNum.mul (.fin (ph.rollingResistance + ph.dragCoefficient)) deltaTime))) }

/-- Lines 667-685: `wheelAngles[0] = leftSteer` and
`wheelAngles[1] = rightSteer`, computed from the steering angle. -/
def setWheelAngles (env : Env α) (ph : Physics α) (w : Written α) : Written α :=
  { w with wheelAngles :=
      ((w.wheelAngles.set 0 (leftSteer env.math env.maxSteer ph w.steering)).set 1
        (rightSteer env.math env.maxSteer ph w.steering)) }

/-- `this.physics.gearRatio[gear - 1]` as a JavaScript number: `NaN` (from
`undefined`) when the index is outside the sequence. -/
def gearRatioAt (ph : Physics α) (gear : Int) : JSNum α :=
  match currentGearRatio { ph with currentGear := gear } with
  | some ratio => .fin ratio
  | none => .nan

/-- Lines 616-621 and 715-720 (the two assignments are the same text):
`engineRPM = clamp(wheelRPM * gearRatio[currentGear - 1], 1000, maxRPM)`.
The constants `currentWheelRPM` (line 616) and `calculatedWheelRPM`
(line 715) are computed from the velocity just before, but the assignment
reads the identifier `wheelRPM`, which nothing declares: in the source the
read throws and `engineRPM` is not assigned. -/
def updateEngineRPM (env : Env α) (ph : Physics α) (w : Written α) : StepResult α :=
  match env.wheelRPM with
  | none => ⟨w, some "ReferenceError: wheelRPM"⟩
  | some wheelRPM =>
    ⟨{ w with engineRPM :=
        (JSNum.clamp (JSNum.mul wheelRPM (gearRatioAt ph w.currentGear))
          (.fin 1000) (.fin ph.maxRPM)) }, none⟩

/-- Lines 623-629 on the assigned fields, with the comparisons of
JavaScript. -/
def shiftFirst (w : Written α) : Written α :=
  if JSNum.Lt (.fin 6000) w.engineRPM ∧ w.currentGear < 5 then
    { w with currentGear := w.currentGear + 1, engineRPM := .fin 4000 }
  else if JSNum.Lt w.engineRPM (.fin 2000) ∧ w.currentGear > 1 then
    { w with currentGear := w.currentGear - 1, engineRPM := .fin 3000 }
  else w

/-- Lines 722-729 on the assigned fields, with the comparisons of
JavaScript. -/
def shiftLast (w : Written α) : Written α :=
  if JSNum.Lt (.fin 6000) w.engineRPM ∧ w.currentGear < 5 then
    { w with currentGear := w.currentGear + 1, engineRPM := .fin 3000 }
  else if JSNum.Lt w.engineRPM (.fin 2000) ∧ w.currentGear > 1 then
    { w with currentGear := w.currentGear - 1, engineRPM := .fin 4000 }
  else w

/-- Lines 562-577: the read of `acceleration`, then the first velocity
update, the first damping step and the steering lines. -/
def integrateFirst (env : Env α) (g : Game α) (deltaTime : JSNum α) (w : Written α) :
    StepResult α :=
  match env.acceleration with
  | none => ⟨w, some "ReferenceError: acceleration"⟩
  | some acceleration =>
    ⟨steer g.physics g.keys (speedOf env g.carState.velocity)
      (dampFirst g.physics (speedOf env g.carState.velocity) deltaTime
        (addAcceleration acceleration deltaTime w)), none⟩

/-- Lines 580-596: `angularAcceleration` (a `TypeError` when `tireForces` has
fewer than four entries), the first angular-velocity update, the first
position update and the first rotation update. -/
def rotateAndMoveFirst (env : Env α) (g : Game α) (deltaTime : JSNum α) (w : Written α) :
    StepResult α :=
  match angularAcceleration g.physics (tireForcesOf env g) with
  | none => ⟨w, some "TypeError: tireForces"⟩
  | some angular =>
    ⟨rotateFirst deltaTime
      (movePosition deltaTime
        (addAngular (angular.multiplyScalarJS deltaTime) 0.92 w)), none⟩

/-- Lines 598-613: the traversal that turns the wheel meshes, which are not
among the assigned fields; for a child whose name contains `wheel` line 601
reads `deltaPosition`. -/
def turnWheelsFirst (env : Env α) (w : Written α) : StepResult α :=
  if env.wheelChild = true ∧ env.deltaPosition = none then
    ⟨w, some "ReferenceError: deltaPosition"⟩
  else ⟨w, none⟩

/-- Lines 616-629: the first RPM assignment and the first gear-shift block. -/
def engineFirst (env : Env α) (g : Game α) (w : Written α) : StepResult α :=
  (updateEngineRPM env g.physics w).andThen fun w1 => ⟨shiftFirst w1, none⟩

/-- Lines 633-655: `calculatedTireForces` and `totalCarForce`, which no later
line reads; lines 654-655 read `aeroDragForce` and `aeroLiftForce`. -/
def totalCarForceReads (env : Env α) (w : Written α) : StepResult α :=
  match env.aeroDragForce with
  | none => ⟨w, some "ReferenceError: aeroDragForce"⟩
  | some _ =>
    match env.aeroLiftForce with
    | none => ⟨w, some "ReferenceError: aeroLiftForce"⟩
    | some _ => ⟨w, none⟩

/-- Lines 658-704: the second velocity update and damping step, the wheel
angles, the second position update, the second angular-velocity update
(`angularAcceleration` has been multiplied by `deltaTime` on line 586 and is
multiplied again on line 698) and the second rotation update.  Lines 707-712
turn the wheel meshes only. -/
def integrateSecond (env : Env α) (g : Game α) (deltaTime : JSNum α) (w : Written α) :
    StepResult α :=
  match angularAcceleration g.physics (tireForcesOf env g) with
  | none => ⟨w, some "TypeError: tireForces"⟩
  | some angular =>
    ⟨rotate deltaTime
      (addAngular ((angular.multiplyScalarJS deltaTime).multiplyScalarJS deltaTime) 0.95
        (movePosition deltaTime
          (setWheelAngles env g.physics
            (damp g.physics deltaTime
              (addAcceleration
                (accelerationSecond g.physics (tireForcesOf env g)
                  (speedOf env g.carState.velocity))
                deltaTime w))))), none⟩

/-- Lines 715-729: the second RPM assignment and the gear-shift block that
ends the function. -/
def engineSecond (env : Env α) (g : Game α) (w : Written α) : StepResult α :=
  (updateEngineRPM env g.physics w).andThen fun w1 => ⟨shiftLast w1, none⟩

/-- Lines 562-729 in order, from the assigned fields `w`. -/
def runLines (env : Env α) (g : Game α) (deltaTime : JSNum α) (w : Written α) :
    StepResult α :=
  ((((((integrateFirst env g deltaTime w).andThen
    (rotateAndMoveFirst env g deltaTime)).andThen
    (turnWheelsFirst env)).andThen
    (engineFirst env g)).andThen
    (totalCarForceReads env)).andThen
    (integrateSecond env g deltaTime)).andThen
    (engineSecond env g)

/-- Lines 469-730, `updateCarPhysics(deltaTime)`, statement by statement.
Line 470 returns when `carRoot` is not set; lines 472-561 assign local
constants only; lines 562-729 follow.  With the reads of the source
(`sourceEnv`) the call ends at line 562, as `updateCarPhysics` says. -/
def updateCarPhysicsLines (env : Env α) (g : Game α) (deltaTime : JSNum α) : StepResult α :=
  match g.carRoot with
  | none => ⟨Written.init g, none⟩
  | some _ => runLines env g deltaTime (Written.init g)

/-! ## The frame callback (lines 860-867) -/

/-- Line 863: `currentTime = time * 0.001`; `time` is `undefined` (`none`) in
the call of line 96, which passes no argument, and the product is `NaN`. -/
def currentTime (time : Option α) : JSNum α :=
  match time with
  | none => .nan
  | some t => .fin (t * 0.001)

/-- Line 864: `deltaTime = Math.min(currentTime - this.lastTime, 0.1)`, for a
`lastTime` that is a JavaScript number. -/
def animateDeltaTime (lastTime : JSNum α) (time : Option α) : JSNum α :=
  JSNum.min (JSNum.sub (currentTime time) lastTime) (.fin 0.1)

/-- The way `animate` leaves the object: the new `lastTime` and the result of
the physics step. -/
structure FrameResult (α : Type) where
  lastTime : JSNum α
  step : StepResult α

/-- Lines 860-867, `animate(time)` up to the physics step: `lastTime` becomes
`currentTime` (line 865), then `updateCarPhysics(deltaTime)` is called
(line 867).  The calls that follow (camera, text, renderer) assign no field
of the object that the physics reads. -/
def animate (env : Env α) (g : Game α) (lastTime : JSNum α) (time : Option α) :
    FrameResult α :=
  ⟨currentTime time, updateCarPhysicsLines env g (animateDeltaTime lastTime time)⟩

/-- Two results that differ at most in `steering` and `wheelAngles`, and end
the same way. -/
def SteerOnly (r1 r2 : StepResult α) : Prop :=
  ∃ s l, r2 = ⟨r1.written.setSteer s l, r1.thrown⟩

end Model

/-! ## Theorems -/

section Theorems
variable {α : Type} [LinearOrderedField α]

theorem lerp_eq (x y t : α) : lerp x y t = x + (y - x) * t := by
  unfold lerp; ring

theorem torqueLoop_segment (curve : List (α × α))
    (hasc : curve.Pairwise (fun p q => p.1 < q.1)) (i : ℕ) (ri ti rj tj : α)
    (hi : curve[i]? = some (ri, ti)) (hj : curve[i + 1]? = some (rj, tj))
    (rpm : α) (h1 : ri ≤ rpm) (h2 : rpm ≤ rj) :
    torqueLoop curve rpm = ti + (tj - ti) * (rpm - ri) / (rj - ri) := by
  induction curve generalizing i with
  | nil => simp at hi
  | cons p tl ih =>
    cases tl with
    | nil => simp at hj
    | cons q rest =>
      have hpq : p.1 < q.1 := by
        have := (List.pairwise_cons.1 hasc).1 q (by simp)
        exact this
      have htl : (q :: rest).Pairwise (fun p q => p.1 < q.1) := (List.pairwise_cons.1 hasc).2
      rw [torqueLoop]
      split_ifs with hm
      · -- first segment matches
        rcases i with _ | j
        · simp at hi hj
          subst hi; subst hj
          rw [lerp_eq]
          simp only
          ring
        · -- the requested segment starts at the end of the first one
          simp at hi hj
          have hqi : q.1 ≤ ri := by
            rcases j with _ | k
            · simp at hi; rw [hi]
            · simp at hi
              have hmem : (ri, ti) ∈ rest := List.getElem?_mem hi
              exact le_of_lt ((List.pairwise_cons.1 htl).1 _ hmem)
          have hrq : rpm = q.1 := le_antisymm hm.2 (le_trans hqi h1)
          have hri : ri = q.1 := le_antisymm (by rw [← hrq]; exact h1) hqi
          have hj0 : j = 0 := by
            rcases j with _ | k
            · rfl
            · exfalso
              simp at hi
              have hmem : (ri, ti) ∈ rest := List.getElem?_mem hi
              have := (List.pairwise_cons.1 htl).1 _ hmem
              simp at this
              linarith
          subst hj0
          simp at hi
          have hne : q.1 - p.1 ≠ 0 := by linarith [sub_pos.2 hpq]
          rw [lerp_eq, hrq, div_self hne, hi]
          simp [hri]
      · rcases i with _ | j
        · exfalso
          simp at hi hj
          apply hm
          rw [hi, hj]
          exact ⟨h1, h2⟩
        · exact ih htl j (by simpa using hi) (by simpa using hj)

theorem torqueLoop_outside (curve : List (α × α))
    (hasc : curve.Pairwise (fun p q => p.1 < q.1)) (rpm : α)
    (hout : (∀ p ∈ curve.head?, rpm < p.1) ∨ (∀ p ∈ curve.getLast?, p.1 < rpm)) :
    torqueLoop curve rpm = 0 := by
  induction curve with
  | nil => rfl
  | cons p tl ih =>
    cases tl with
    | nil => rfl
    | cons q rest =>
      have hpq : p.1 < q.1 := (List.pairwise_cons.1 hasc).1 q (by simp)
      have htl : (q :: rest).Pairwise (fun p q => p.1 < q.1) := (List.pairwise_cons.1 hasc).2
      rw [torqueLoop]
      rcases hout with hlo | hhi
      · have hp : rpm < p.1 := hlo p (by simp)
        rw [if_neg (by intro h; exact absurd h.1 (not_le.2 hp))]
        exact ih htl (Or.inl (by intro r hr; simp at hr; subst hr; exact lt_trans hp hpq))
      · have hlast : ∀ r ∈ (q :: rest).getLast?, r.1 < rpm := by
          intro r hr
          apply hhi r
          simpa [List.getLast?_cons_cons] using hr
        have hq : q.1 < rpm := by
          obtain ⟨l, hl⟩ : ∃ l, (q :: rest).getLast? = some l := by
            simp [List.getLast?_eq_getLast]
          have hlt := hlast l (by simp [hl])
          have hmem : l ∈ q :: rest := List.mem_of_getLast?_eq_some hl
          rcases List.mem_cons.1 hmem with h | h
          · rw [← h]; exact hlt
          · exact lt_trans ((List.pairwise_cons.1 htl).1 l h) hlt
        rw [if_neg (by intro h; exact absurd h.2 (not_le.2 hq))]
        exact ih htl (Or.inr hlast)

/-- C1: for a torque curve with strictly ascending control-point RPMs, two
adjacent control points `(ri, ti)`, `(rj, tj)` and an `engineRPM` with
`ri ≤ engineRPM ≤ rj`, the delivered torque is the linear interpolation
between the two points times the throttle input; this includes an `engineRPM`
that is a shared control point, where the loop stops at the earlier segment. -/
theorem torque_interpolation (curve : List (α × α))
    (hasc : curve.Pairwise (fun p q => p.1 < q.1)) (i : ℕ) (ri ti rj tj : α)
    (hi : curve[i]? = some (ri, ti)) (hj : curve[i + 1]? = some (rj, tj))
    (engineRPM : α) (h1 : ri ≤ engineRPM) (h2 : engineRPM ≤ rj) (keys : Keys) :
    effectiveTorque curve engineRPM keys
      = (ti + (tj - ti) * (engineRPM - ri) / (rj - ri)) * throttleInput keys := by
  unfold effectiveTorque
  rw [torqueLoop_segment curve hasc i ri ti rj tj hi hj engineRPM h1 h2]

/-- C1 at the default curve, segment 1 (`(1500, 280)` to `(4500, 420)`), with
`engineRPM = 1500`, the control point shared with segment 0, and `W` held. -/
theorem torque_interpolation_witness :
    effectiveTorque (defaultTorqueCurve : List (ℚ × ℚ)) 1500 ⟨true, false, false, false, false⟩
      = (280 + (420 - 280) * (1500 - 1500) / (4500 - 1500))
          * throttleInput ⟨true, false, false, false, false⟩ :=
  torque_interpolation defaultTorqueCurve (by norm_num [defaultTorqueCurve]) 1
    1500 280 4500 420 (by simp [defaultTorqueCurve]) (by simp [defaultTorqueCurve])
    1500 (by norm_num) (by norm_num) _

/-- C2 as stated fails: at `engineRPM = 7000`, above the last control point
`(6500, 390)` of the default curve, with `W` held, the lookup gives `0`, not
the last point's torque `390`. -/
theorem torque_clamp_counterexample :
    (6500 : ℚ) < 7000 ∧
    effectiveTorque (defaultTorqueCurve : List (ℚ × ℚ)) 7000 ⟨true, false, false, false, false⟩ = 0 ∧
    effectiveTorque (defaultTorqueCurve : List (ℚ × ℚ)) 7000 ⟨true, false, false, false, false⟩
      ≠ 390 := by
  norm_num [effectiveTorque, torqueLoop, defaultTorqueCurve, throttleInput, lerp]

/-- C2, amended: for a torque curve with strictly ascending control-point RPMs
and an `engineRPM` below the first control point's RPM or above the last
one's, no segment matches and the lookup gives torque `0`. -/
theorem torque_outside_range (curve : List (α × α))
    (hasc : curve.Pairwise (fun p q => p.1 < q.1)) (engineRPM : α)
    (hout : (∀ p ∈ curve.head?, engineRPM < p.1) ∨ (∀ p ∈ curve.getLast?, p.1 < engineRPM))
    (keys : Keys) :
    torqueLoop curve engineRPM = 0 ∧ effectiveTorque curve engineRPM keys = 0 := by
  have h := torqueLoop_outside curve hasc engineRPM hout
  simp [effectiveTorque, h]

/-- C2, amended, at the default curve with `engineRPM = 7000`, above the last
control point `(6500, 390)`. -/
theorem torque_outside_range_witness :
    torqueLoop (defaultTorqueCurve : List (ℚ × ℚ)) 7000 = 0 ∧
    effectiveTorque (defaultTorqueCurve : List (ℚ × ℚ)) 7000 ⟨true, false, false, false, false⟩ = 0 :=
  torque_outside_range defaultTorqueCurve (by norm_num [defaultTorqueCurve]) 7000
    (Or.inr (by norm_num [defaultTorqueCurve])) _

/-! ### Gear shifting -/

theorem shiftGears_cases (ph : Physics α) :
    (6000 < ph.engineRPM ∧ ph.currentGear < 5 ∧
      shiftGears ph = { ph with currentGear := ph.currentGear + 1, engineRPM := 3000 }) ∨
    (ph.engineRPM < 2000 ∧ 1 < ph.currentGear ∧ ¬ (6000 < ph.engineRPM ∧ ph.currentGear < 5) ∧
      shiftGears ph = { ph with currentGear := ph.currentGear - 1, engineRPM := 4000 }) ∨
    (¬ (6000 < ph.engineRPM ∧ ph.currentGear < 5) ∧ ¬ (ph.engineRPM < 2000 ∧ 1 < ph.currentGear) ∧
      shiftGears ph = ph) := by
  unfold shiftGears
  by_cases h1 : ph.engineRPM > 6000 ∧ ph.currentGear < 5
  · left; rw [if_pos h1]; exact ⟨h1.1, h1.2, rfl⟩
  · by_cases h2 : ph.engineRPM < 2000 ∧ ph.currentGear > 1
    · right; left; rw [if_neg h1, if_pos h2]; exact ⟨h2.1, h2.2, h1, rfl⟩
    · right; right; rw [if_neg h1, if_neg h2]; exact ⟨h1, h2, rfl⟩

theorem shiftGearsFirst_cases (ph : Physics α) :
    (6000 < ph.engineRPM ∧ ph.currentGear < 5 ∧
      shiftGearsFirst ph = { ph with currentGear := ph.currentGear + 1, engineRPM := 4000 }) ∨
    (ph.engineRPM < 2000 ∧ 1 < ph.currentGear ∧ ¬ (6000 < ph.engineRPM ∧ ph.currentGear < 5) ∧
      shiftGearsFirst ph = { ph with currentGear := ph.currentGear - 1, engineRPM := 3000 }) ∨
    (¬ (6000 < ph.engineRPM ∧ ph.currentGear < 5) ∧ ¬ (ph.engineRPM < 2000 ∧ 1 < ph.currentGear) ∧
      shiftGearsFirst ph = ph) := by
  unfold shiftGearsFirst
  by_cases h1 : ph.engineRPM > 6000 ∧ ph.currentGear < 5
  · left; rw [if_pos h1]; exact ⟨h1.1, h1.2, rfl⟩
  · by_cases h2 : ph.engineRPM < 2000 ∧ ph.currentGear > 1
    · right; left; rw [if_neg h1, if_pos h2]; exact ⟨h2.1, h2.2, h1, rfl⟩
    · right; right; rw [if_neg h1, if_neg h2]; exact ⟨h1, h2, rfl⟩

theorem shiftGears_gear_range (ph : Physics α)
    (hg : 1 ≤ ph.currentGear ∧ ph.currentGear ≤ 5) :
    1 ≤ (shiftGears ph).currentGear ∧ (shiftGears ph).currentGear ≤ 5 := by
  rcases shiftGears_cases ph with ⟨_, h, e⟩ | ⟨_, h, _, e⟩ | ⟨_, _, e⟩ <;> rw [e] <;>
    constructor <;> (try simp only) <;> omega

theorem shiftGearsFirst_gear_range (ph : Physics α)
    (hg : 1 ≤ ph.currentGear ∧ ph.currentGear ≤ 5) :
    1 ≤ (shiftGearsFirst ph).currentGear ∧ (shiftGearsFirst ph).currentGear ≤ 5 := by
  rcases shiftGearsFirst_cases ph with ⟨_, h, e⟩ | ⟨_, h, _, e⟩ | ⟨_, _, e⟩ <;> rw [e] <;>
    constructor <;> (try simp only) <;> omega

theorem shiftGears_gearRatio (ph : Physics α) :
    (shiftGears ph).gearRatio = ph.gearRatio ∧ (shiftGearsFirst ph).gearRatio = ph.gearRatio ∧
    (shiftGears ph).maxRPM = ph.maxRPM ∧ (shiftGearsFirst ph).maxRPM = ph.maxRPM := by
  refine ⟨?_, ?_, ?_, ?_⟩
  · rcases shiftGears_cases ph with ⟨_, _, e⟩ | ⟨_, _, _, e⟩ | ⟨_, _, e⟩ <;> rw [e]
  · rcases shiftGearsFirst_cases ph with ⟨_, _, e⟩ | ⟨_, _, _, e⟩ | ⟨_, _, e⟩ <;> rw [e]
  · rcases shiftGears_cases ph with ⟨_, _, e⟩ | ⟨_, _, _, e⟩ | ⟨_, _, e⟩ <;> rw [e]
  · rcases shiftGearsFirst_cases ph with ⟨_, _, e⟩ | ⟨_, _, _, e⟩ | ⟨_, _, e⟩ <;> rw [e]

omit [LinearOrderedField α] in
theorem currentGearRatio_isSome (ph : Physics α)
    (hg : 1 ≤ ph.currentGear ∧ ph.currentGear ≤ 5) (hlen : ph.gearRatio.length = 5) :
    ∃ ratio, currentGearRatio ph = some ratio ∧ ratio ∈ ph.gearRatio := by
  unfold currentGearRatio
  rw [if_pos hg.1]
  have hlt : (ph.currentGear - 1).toNat < ph.gearRatio.length := by omega
  refine ⟨ph.gearRatio[(ph.currentGear - 1).toNat], ?_, List.getElem_mem _⟩
  exact List.getElem?_eq_getElem hlt

/-- C3: from a state with `1 ≤ currentGear ≤ 5`, each of the two gear-shift
blocks leaves `1 ≤ currentGear ≤ 5`, so that with a 5-element gear-ratio
sequence `gearRatio[currentGear - 1]` is an entry of the sequence; at gear 5
with `engineRPM > 6000` and at gear 1 with `engineRPM < 2000` the blocks
change nothing. -/
theorem gear_validity (ph : Physics α)
    (hg : 1 ≤ ph.currentGear ∧ ph.currentGear ≤ 5) (hlen : ph.gearRatio.length = 5) :
    (1 ≤ (shiftGears ph).currentGear ∧ (shiftGears ph).currentGear ≤ 5) ∧
    (1 ≤ (shiftGearsFirst ph).currentGear ∧ (shiftGearsFirst ph).currentGear ≤ 5) ∧
    (∃ ratio, currentGearRatio (shiftGears ph) = some ratio ∧ ratio ∈ ph.gearRatio) ∧
    (∃ ratio, currentGearRatio (shiftGearsFirst ph) = some ratio ∧ ratio ∈ ph.gearRatio) ∧
    (ph.currentGear = 5 → 6000 < ph.engineRPM →
      shiftGears ph = ph ∧ shiftGearsFirst ph = ph) ∧
    (ph.currentGear = 1 → ph.engineRPM < 2000 →
      shiftGears ph = ph ∧ shiftGearsFirst ph = ph) := by
  have hr := shiftGears_gearRatio ph
  refine ⟨shiftGears_gear_range ph hg, shiftGearsFirst_gear_range ph hg, ?_, ?_, ?_, ?_⟩
  · have := currentGearRatio_isSome (shiftGears ph) (shiftGears_gear_range ph hg)
      (by rw [hr.1]; exact hlen)
    rwa [hr.1] at this
  · have := currentGearRatio_isSome (shiftGearsFirst ph) (shiftGearsFirst_gear_range ph hg)
      (by rw [hr.2.1]; exact hlen)
    rwa [hr.2.1] at this
  · intro h5 hrpm
    have h2 : ¬ ph.engineRPM < 2000 := by
      intro h; have : (2000 : α) < 6000 := by norm_num
      exact absurd (lt_trans (lt_trans h this) hrpm) (lt_irrefl _)
    constructor
    · rcases shiftGears_cases ph with ⟨_, h, _⟩ | ⟨h, _, _, _⟩ | ⟨_, _, e⟩
      · omega
      · exact absurd h h2
      · exact e
    · rcases shiftGearsFirst_cases ph with ⟨_, h, _⟩ | ⟨h, _, _, _⟩ | ⟨_, _, e⟩
      · omega
      · exact absurd h h2
      · exact e
  · intro h1 hrpm
    have h6 : ¬ 6000 < ph.engineRPM := by
      intro h; have : (2000 : α) < 6000 := by norm_num
      exact absurd (lt_trans (lt_trans hrpm this) h) (lt_irrefl _)
    constructor
    · rcases shiftGears_cases ph with ⟨h, _, _⟩ | ⟨_, h, _, _⟩ | ⟨_, _, e⟩
      · exact absurd h h6
      · omega
      · exact e
    · rcases shiftGearsFirst_cases ph with ⟨h, _, _⟩ | ⟨_, h, _, _⟩ | ⟨_, _, e⟩
      · exact absurd h h6
      · omega
      · exact e

/-- C3 at the default configuration in gear 5 at 6200 RPM: both blocks leave
the state as it is. -/
theorem gear_validity_witness :
    shiftGears ({ (defaultPhysics : Physics ℚ) with currentGear := 5, engineRPM := 6200 })
      = { (defaultPhysics : Physics ℚ) with currentGear := 5, engineRPM := 6200 } ∧
    shiftGearsFirst ({ (defaultPhysics : Physics ℚ) with currentGear := 5, engineRPM := 6200 })
      = { (defaultPhysics : Physics ℚ) with currentGear := 5, engineRPM := 6200 } :=
  (gear_validity ({ (defaultPhysics : Physics ℚ) with currentGear := 5, engineRPM := 6200 })
    (by decide) (by simp [defaultPhysics])).2.2.2.2.1 rfl (by norm_num)

/-! ### Engine RPM -/

theorem clamp_bounds (v lo hi : α) (h : lo ≤ hi) : lo ≤ clamp v lo hi ∧ clamp v lo hi ≤ hi :=
  ⟨le_max_left _ _, max_le h (min_le_left _ _)⟩

theorem shiftGears_rpm_bounds (ph : Physics α) (hmax : ph.maxRPM = 6500)
    (h : 1000 ≤ ph.engineRPM ∧ ph.engineRPM ≤ ph.maxRPM) :
    (1000 ≤ (shiftGears ph).engineRPM ∧ (shiftGears ph).engineRPM ≤ (shiftGears ph).maxRPM) ∧
    (1000 ≤ (shiftGearsFirst ph).engineRPM ∧
      (shiftGearsFirst ph).engineRPM ≤ (shiftGearsFirst ph).maxRPM) := by
  constructor
  · rcases shiftGears_cases ph with ⟨_, _, e⟩ | ⟨_, _, _, e⟩ | ⟨_, _, e⟩ <;> rw [e]
    · simp only [hmax]; norm_num
    · simp only [hmax]; norm_num
    · exact h
  · rcases shiftGearsFirst_cases ph with ⟨_, _, e⟩ | ⟨_, _, _, e⟩ | ⟨_, _, e⟩ <;> rw [e]
    · simp only [hmax]; norm_num
    · simp only [hmax]; norm_num
    · exact h

/-- C4 on lines 715-720 run as written, in gear 2 at 1000 RPM with velocity
`(0, 0, 35)`: `calculatedWheelRPM` is `954.93` and its clamped product with
the ratio `2.10` would be `2005.353`, but the assignment reads the
undeclared `wheelRPM` and throws, so `engineRPM` is still `1000` and the
gear-shift block is not run; the same holds for lines 616-621, and the whole
call ends even earlier, at line 562. -/
theorem engineRPM_feedback_throws (math : JSMath ℚ) (sqrt : ℚ → ℚ) (maxSteer : ℚ)
    (wheelChild : Bool) (deltaTime : JSNum ℚ) :
    calculatedWheelRPM ({ (defaultPhysics : Physics ℚ) with currentGear := 2 }) ⟨0, 0, 35⟩
      = 954.93 ∧
    currentGearRatio ({ (defaultPhysics : Physics ℚ) with currentGear := 2 }) = some 2.10 ∧
    clamp (954.93 * 2.10 : ℚ) 1000 (defaultPhysics : Physics ℚ).maxRPM = 2005.353 ∧
    engineSecond (sourceEnv math sqrt maxSteer wheelChild)
        ({ (loadedGame : Game ℚ) with
          physics := { (defaultPhysics : Physics ℚ) with currentGear := 2 },
          carState := { (initialCarState : CarState ℚ) with velocity := ⟨0, 0, 35⟩ } })
        ⟨⟨.fin 0, .fin 0, .fin 35⟩, ⟨.fin 0, .fin 0, .fin 0⟩, 0,
          [.fin 0, .fin 0, .fin 0, .fin 0],
          some (⟨.fin 10, .fin 0, .fin 0⟩, ⟨.fin 0, .fin 0, .fin 0⟩), 2, .fin 1000⟩
      = ⟨⟨⟨.fin 0, .fin 0, .fin 35⟩, ⟨.fin 0, .fin 0, .fin 0⟩, 0,
          [.fin 0, .fin 0, .fin 0, .fin 0],
          some (⟨.fin 10, .fin 0, .fin 0⟩, ⟨.fin 0, .fin 0, .fin 0⟩), 2, .fin 1000⟩,
        some "ReferenceError: wheelRPM"⟩ ∧
    engineFirst (sourceEnv math sqrt maxSteer wheelChild)
        ({ (loadedGame : Game ℚ) with
          physics := { (defaultPhysics : Physics ℚ) with currentGear := 2 },
          carState := { (initialCarState : CarState ℚ) with velocity := ⟨0, 0, 35⟩ } })
        ⟨⟨.fin 0, .fin 0, .fin 35⟩, ⟨.fin 0, .fin 0, .fin 0⟩, 0,
          [.fin 0, .fin 0, .fin 0, .fin 0],
          some (⟨.fin 10, .fin 0, .fin 0⟩, ⟨.fin 0, .fin 0, .fin 0⟩), 2, .fin 1000⟩
      = ⟨⟨⟨.fin 0, .fin 0, .fin 35⟩, ⟨.fin 0, .fin 0, .fin 0⟩, 0,
          [.fin 0, .fin 0, .fin 0, .fin 0],
          some (⟨.fin 10, .fin 0, .fin 0⟩, ⟨.fin 0, .fin 0, .fin 0⟩), 2, .fin 1000⟩,
        some "ReferenceError: wheelRPM"⟩ ∧
    (updateCarPhysicsLines (sourceEnv math sqrt maxSteer wheelChild)
        ({ (loadedGame : Game ℚ) with
          physics := { (defaultPhysics : Physics ℚ) with currentGear := 2 },
          carState := { (initialCarState : CarState ℚ) with velocity := ⟨0, 0, 35⟩ } })
        deltaTime).written.engineRPM = .fin 1000 := by
  refine ⟨?_, ?_, ?_, rfl, rfl, rfl⟩
  · norm_num [calculatedWheelRPM, defaultPhysics]
  · simp [currentGearRatio, defaultPhysics]
  · norm_num [clamp, defaultPhysics]

/-! ### Hysteresis -/

theorem shiftGears_idem (ph : Physics α) : shiftGears (shiftGears ph) = shiftGears ph := by
  rcases shiftGears_cases ph with ⟨_, _, e⟩ | ⟨_, _, _, e⟩ | ⟨_, _, e⟩
  · rw [e]; unfold shiftGears
    rw [if_neg (by simp only; norm_num), if_neg (by simp only; norm_num)]
  · rw [e]; unfold shiftGears
    rw [if_neg (by simp only; norm_num), if_neg (by simp only; norm_num)]
  · rw [e, e]

theorem shiftGearsFirst_idem (ph : Physics α) :
    shiftGearsFirst (shiftGearsFirst ph) = shiftGearsFirst ph := by
  rcases shiftGearsFirst_cases ph with ⟨_, _, e⟩ | ⟨_, _, _, e⟩ | ⟨_, _, e⟩
  · rw [e]; unfold shiftGearsFirst
    rw [if_neg (by simp only; norm_num), if_neg (by simp only; norm_num)]
  · rw [e]; unfold shiftGearsFirst
    rw [if_neg (by simp only; norm_num), if_neg (by simp only; norm_num)]
  · rw [e, e]

/-- C5 as stated fails for the first gear-shift block (lines 623-629): from
gear 1 at 6100 RPM it gives gear 2 with `engineRPM = 4000`, not the value
`3000` of the claim. -/
theorem gear_hysteresis_counterexample :
    (shiftGearsFirst ({ (defaultPhysics : Physics ℚ) with engineRPM := 6100 })).currentGear
      = 2 ∧
    (shiftGearsFirst ({ (defaultPhysics : Physics ℚ) with engineRPM := 6100 })).engineRPM
      = 4000 ∧
    (shiftGearsFirst ({ (defaultPhysics : Physics ℚ) with engineRPM := 6100 })).engineRPM
      ≠ 3000 := by
  have h : shiftGearsFirst ({ (defaultPhysics : Physics ℚ) with engineRPM := 6100 })
      = { (defaultPhysics : Physics ℚ) with currentGear := 2, engineRPM := 4000 } := by
    unfold shiftGearsFirst
    rw [if_pos (by constructor <;> norm_num [defaultPhysics])]
    rfl
  rw [h]
  exact ⟨rfl, rfl, by norm_num⟩

/-- C5, amended: from gear 1 with `engineRPM > 6000` either gear-shift block
gives gear 2, with `engineRPM = 3000` for the block that ends
`updateCarPhysics` (lines 722-729) and `engineRPM = 4000` for the first block
(lines 623-629); a block that shifts up from any gear below 5 adds one to the
gear, and one that shifts down (below 2000 RPM, above gear 1) subtracts one
and leaves 4000 and 3000 respectively; applying a block to its own result
changes nothing, and whenever a block shifts, the RPM it leaves lies in the
no-shift band `[2000, 6000]`. -/
theorem gear_hysteresis (ph : Physics α) :
    (ph.currentGear = 1 → 6000 < ph.engineRPM →
      ((shiftGears ph).currentGear = 2 ∧ (shiftGears ph).engineRPM = 3000) ∧
      ((shiftGearsFirst ph).currentGear = 2 ∧ (shiftGearsFirst ph).engineRPM = 4000)) ∧
    (6000 < ph.engineRPM → ph.currentGear < 5 →
      shiftGears ph = { ph with currentGear := ph.currentGear + 1, engineRPM := 3000 } ∧
      shiftGearsFirst ph
        = { ph with currentGear := ph.currentGear + 1, engineRPM := 4000 }) ∧
    (ph.engineRPM < 2000 → 1 < ph.currentGear →
      shiftGears ph = { ph with currentGear := ph.currentGear - 1, engineRPM := 4000 } ∧
      shiftGearsFirst ph
        = { ph with currentGear := ph.currentGear - 1, engineRPM := 3000 }) ∧
    shiftGears (shiftGears ph) = shiftGears ph ∧
    shiftGearsFirst (shiftGearsFirst ph) = shiftGearsFirst ph ∧
    (shiftGears ph ≠ ph →
      2000 ≤ (shiftGears ph).engineRPM ∧ (shiftGears ph).engineRPM ≤ 6000) ∧
    (shiftGearsFirst ph ≠ ph →
      2000 ≤ (shiftGearsFirst ph).engineRPM ∧ (shiftGearsFirst ph).engineRPM ≤ 6000) := by
  have hup : 6000 < ph.engineRPM → ph.currentGear < 5 →
      shiftGears ph = { ph with currentGear := ph.currentGear + 1, engineRPM := 3000 } ∧
      shiftGearsFirst ph
        = { ph with currentGear := ph.currentGear + 1, engineRPM := 4000 } := by
    intro h1 h2
    constructor
    · unfold shiftGears; rw [if_pos ⟨h1, h2⟩]
    · unfold shiftGearsFirst; rw [if_pos ⟨h1, h2⟩]
  have hdown : ph.engineRPM < 2000 → 1 < ph.currentGear →
      shiftGears ph = { ph with currentGear := ph.currentGear - 1, engineRPM := 4000 } ∧
      shiftGearsFirst ph
        = { ph with currentGear := ph.currentGear - 1, engineRPM := 3000 } := by
    intro h1 h2
    have hno : ¬ (ph.engineRPM > 6000 ∧ ph.currentGear < 5) := by
      intro h
      have h3 : (2000 : α) < 6000 := by norm_num
      exact absurd (lt_trans (lt_trans h1 h3) h.1) (lt_irrefl _)
    constructor
    · unfold shiftGears; rw [if_neg hno, if_pos ⟨h1, h2⟩]
    · unfold shiftGearsFirst; rw [if_neg hno, if_pos ⟨h1, h2⟩]
  refine ⟨?_, hup, hdown, shiftGears_idem ph, shiftGearsFirst_idem ph, ?_, ?_⟩
  · intro h1 hrpm
    obtain ⟨e1, e2⟩ := hup hrpm (by omega)
    rw [e1, e2]
    simp only [h1]
    exact ⟨⟨by norm_num, trivial⟩, ⟨by norm_num, trivial⟩⟩
  · intro hne
    rcases shiftGears_cases ph with ⟨_, _, e⟩ | ⟨_, _, _, e⟩ | ⟨_, _, e⟩
    · rw [e]; simp only; norm_num
    · rw [e]; simp only; norm_num
    · exact absurd e hne
  · intro hne
    rcases shiftGearsFirst_cases ph with ⟨_, _, e⟩ | ⟨_, _, _, e⟩ | ⟨_, _, e⟩
    · rw [e]; simp only; norm_num
    · rw [e]; simp only; norm_num
    · exact absurd e hne

/-- C5, amended, at the default configuration in gear 1 at 6100 RPM: the last
block gives gear 2 at 3000 RPM, the first block gear 2 at 4000 RPM, and a
second application of the last block changes nothing. -/
theorem gear_hysteresis_witness :
    ((shiftGears ({ (defaultPhysics : Physics ℚ) with engineRPM := 6100 })).currentGear = 2 ∧
      (shiftGears ({ (defaultPhysics : Physics ℚ) with engineRPM := 6100 })).engineRPM
        = 3000) ∧
    ((shiftGearsFirst ({ (defaultPhysics : Physics ℚ) with engineRPM := 6100 })).currentGear
        = 2 ∧
      (shiftGearsFirst ({ (defaultPhysics : Physics ℚ) with engineRPM := 6100 })).engineRPM
        = 4000) ∧
    shiftGears (shiftGears ({ (defaultPhysics : Physics ℚ) with engineRPM := 6100 }))
      = shiftGears ({ (defaultPhysics : Physics ℚ) with engineRPM := 6100 }) :=
  have h := gear_hysteresis ({ (defaultPhysics : Physics ℚ) with engineRPM := 6100 })
  ⟨(h.1 rfl (by norm_num)).1, (h.1 rfl (by norm_num)).2, h.2.2.2.1⟩

/-! ### Steering -/

theorem steeringDecay_bounds (c s : α) (hs : -c ≤ s ∧ s ≤ c) :
    -c ≤ steeringDecay s ∧ steeringDecay s ≤ c := by
  have hc : 0 ≤ c := by linarith [hs.1, hs.2]
  unfold steeringDecay
  split_ifs
  · exact ⟨by linarith, hc⟩
  · constructor
    · have : (-c) * 0.8 ≤ s * 0.8 := mul_le_mul_of_nonneg_right hs.1 (by norm_num)
      have h2 : -c ≤ (-c) * 0.8 := by
        have : c * 0.8 ≤ c * 1 := mul_le_mul_of_nonneg_left (by norm_num) hc
        linarith
      linarith
    · have : s * 0.8 ≤ c * 0.8 := mul_le_mul_of_nonneg_right hs.2 (by norm_num)
      have : c * 0.8 ≤ c * 1 := mul_le_mul_of_nonneg_left (by norm_num) hc
      linarith

theorem setSteering_inRange (g : Game α) (v : α)
    (hv : -g.physics.steeringClamp ≤ v ∧ v ≤ g.physics.steeringClamp) :
    (setSteering g v).physics = g.physics ∧ SteeringInRange (setSteering g v) :=
  ⟨rfl, hv⟩

theorem steeringTick_inRange (g : Game α) (hc : 0 ≤ g.physics.steeringClamp) (speed : α) :
    (steeringTick g speed).physics = g.physics ∧ SteeringInRange (steeringTick g speed) :=
  setSteering_inRange g _ (clamp_bounds _ _ _ (by linarith))

theorem keyDownThrottle_inRange (g : Game α) (hs : SteeringInRange g) (key : String) :
    (keyDownThrottle g key).physics = g.physics ∧ SteeringInRange (keyDownThrottle g key) := by
  unfold keyDownThrottle; split_ifs <;> exact ⟨rfl, hs⟩

theorem keyDownBrake_inRange (g : Game α) (hs : SteeringInRange g) (key : String) :
    (keyDownBrake g key).physics = g.physics ∧ SteeringInRange (keyDownBrake g key) := by
  unfold keyDownBrake; split_ifs <;> exact ⟨rfl, hs⟩

theorem keyDownSteerLeft_inRange (g : Game α) (hc : 0 ≤ g.physics.steeringClamp)
    (hs : SteeringInRange g) (key : String) :
    (keyDownSteerLeft g key).physics = g.physics ∧ SteeringInRange (keyDownSteerLeft g key) := by
  unfold keyDownSteerLeft; split_ifs
  · exact setSteering_inRange g _ (clamp_bounds _ _ _ (by linarith))
  · exact ⟨rfl, hs⟩

theorem keyDownSteerRight_inRange (g : Game α) (hc : 0 ≤ g.physics.steeringClamp)
    (hs : SteeringInRange g) (key : String) :
    (keyDownSteerRight g key).physics = g.physics ∧
      SteeringInRange (keyDownSteerRight g key) := by
  unfold keyDownSteerRight; split_ifs
  · exact setSteering_inRange g _ (clamp_bounds _ _ _ (by linarith))
  · exact ⟨rfl, hs⟩

theorem handleKeyDown_inRange (g : Game α) (hc : 0 ≤ g.physics.steeringClamp)
    (hs : SteeringInRange g) (key : String) :
    (handleKeyDown g key).physics = g.physics ∧ SteeringInRange (handleKeyDown g key) := by
  have h1 := keyDownThrottle_inRange g hs key
  have h2 := keyDownBrake_inRange _ h1.2 key
  have h3 := keyDownSteerLeft_inRange _ (by rw [h2.1, h1.1]; exact hc) h2.2 key
  have h4 := keyDownSteerRight_inRange _ (by rw [h3.1, h2.1, h1.1]; exact hc) h3.2 key
  exact ⟨by unfold handleKeyDown; rw [h4.1, h3.1, h2.1, h1.1], h4.2⟩

theorem keyUpThrottle_inRange (g : Game α) (hs : SteeringInRange g) (key : String) :
    (keyUpThrottle g key).physics = g.physics ∧ SteeringInRange (keyUpThrottle g key) := by
  unfold keyUpThrottle; split_ifs <;> exact ⟨rfl, hs⟩

theorem keyUpBrake_inRange (g : Game α) (hs : SteeringInRange g) (key : String) :
    (keyUpBrake g key).physics = g.physics ∧ SteeringInRange (keyUpBrake g key) := by
  unfold keyUpBrake; split_ifs <;> exact ⟨rfl, hs⟩

theorem keyUpSteer_inRange (g : Game α) (hs : SteeringInRange g) (key : String) :
    (keyUpSteer g key).physics = g.physics ∧ SteeringInRange (keyUpSteer g key) := by
  unfold keyUpSteer; split_ifs
  · exact setSteering_inRange g _ (steeringDecay_bounds _ _ hs)
  · exact ⟨rfl, hs⟩

theorem handleKeyUp_inRange (g : Game α) (hs : SteeringInRange g) (key : String) :
    (handleKeyUp g key).physics = g.physics ∧ SteeringInRange (handleKeyUp g key) := by
  have h1 := keyUpThrottle_inRange g hs key
  have h2 := keyUpBrake_inRange _ h1.2 key
  have h3 := keyUpSteer_inRange _ h2.2 key
  exact ⟨by unfold handleKeyUp; rw [h3.1, h2.1, h1.1], h3.2⟩

theorem applySteeringOp_inRange (g : Game α) (hc : 0 ≤ g.physics.steeringClamp)
    (hs : SteeringInRange g) (op : SteeringOp α) :
    (applySteeringOp g op).physics = g.physics ∧ SteeringInRange (applySteeringOp g op) := by
  cases op with
  | tick speed => exact steeringTick_inRange g hc speed
  | keyDown key => exact handleKeyDown_inRange g hc hs key
  | keyUp key => exact handleKeyUp_inRange g hs key

theorem applySteeringOps_inRange (ops : List (SteeringOp α)) (g : Game α)
    (hc : 0 ≤ g.physics.steeringClamp) (hs : SteeringInRange g) :
    (applySteeringOps g ops).physics = g.physics ∧ SteeringInRange (applySteeringOps g ops) := by
  induction ops generalizing g with
  | nil => exact ⟨rfl, hs⟩
  | cons op rest ih =>
    have h1 := applySteeringOp_inRange g hc hs op
    have h2 := ih (applySteeringOp g op) (by rw [h1.1]; exact hc) h1.2
    exact ⟨by rw [← h1.1]; exact h2.1, h2.2⟩

/-- C7: from an object whose `carState.steering` lies in
`[-steeringClamp, steeringClamp]` (`steeringClamp ≥ 0`), any sequence of the
operations that write `carState.steering` (the steering lines of a tick at
any speed and for any key flags, a key-down event, a key-up event) leaves
`carState.steering` in that interval and `steeringClamp` as it was. -/
theorem steering_clamp_invariant (g : Game α) (hc : 0 ≤ g.physics.steeringClamp)
    (hs : -g.physics.steeringClamp ≤ g.carState.steering ∧
      g.carState.steering ≤ g.physics.steeringClamp)
    (ops : List (SteeringOp α)) :
    (applySteeringOps g ops).physics.steeringClamp = g.physics.steeringClamp ∧
    -g.physics.steeringClamp ≤ (applySteeringOps g ops).carState.steering ∧
    (applySteeringOps g ops).carState.steering ≤ g.physics.steeringClamp := by
  have h := applySteeringOps_inRange ops g hc hs
  have h2 := h.2
  unfold SteeringInRange at h2
  rw [h.1] at h2
  exact ⟨by rw [h.1], h2⟩

/-- C7 from the loaded initial object: twenty key-down events of `a` followed
by a tick. -/
theorem steering_clamp_invariant_witness :
    (applySteeringOps (loadedGame : Game ℚ)
        (List.replicate 20 (SteeringOp.keyDown "a") ++ [SteeringOp.tick 3])).physics.steeringClamp
      = (loadedGame : Game ℚ).physics.steeringClamp ∧
    -(loadedGame : Game ℚ).physics.steeringClamp
      ≤ (applySteeringOps (loadedGame : Game ℚ)
          (List.replicate 20 (SteeringOp.keyDown "a") ++ [SteeringOp.tick 3])).carState.steering ∧
    (applySteeringOps (loadedGame : Game ℚ)
        (List.replicate 20 (SteeringOp.keyDown "a") ++ [SteeringOp.tick 3])).carState.steering
      ≤ (loadedGame : Game ℚ).physics.steeringClamp :=
  steering_clamp_invariant loadedGame
    (by norm_num [loadedGame, initialGame, defaultPhysics])
    (by norm_num [loadedGame, initialGame, defaultPhysics, initialCarState]) _

/-! ### Reset -/

theorem handleKeyDown_a (g : Game α) :
    handleKeyDown g "a"
      = setSteering g (clamp (g.carState.steering + g.physics.steeringStep)
          (-g.physics.steeringClamp) g.physics.steeringClamp) := by
  have h1 : keyDownThrottle g "a" = g := if_neg (by decide)
  have h2 : keyDownBrake g "a" = g := if_neg (by decide)
  unfold handleKeyDown
  rw [h1, h2]
  unfold keyDownSteerRight
  rw [if_neg (by decide)]
  exact if_pos rfl

theorem resetCar_carState (g : Game α) :
    (resetCar g).carState = g.carState ∧ (resetCar g).physics = g.physics ∧
    (resetCar g).keys = g.keys := by
  unfold resetCar
  cases g.carRoot <;> exact ⟨rfl, rfl, rfl⟩

theorem resetCar_pose (g : Game α) (pose : Vec3 α × Vec3 α) (h : g.carRoot = some pose) :
    (resetCar g).carRoot = some (g.initialPosition, g.initialRotation) ∧
    (resetCar g).speed = 0 ∧ (resetCar g).acceleration = 0 ∧ (resetCar g).steering = 0 := by
  unfold resetCar
  rw [h]
  exact ⟨rfl, rfl, rfl, rfl⟩

/-- C9 at the loaded object after one key-down of `a` (which sets
`carState.steering` to `0.04`): `resetCar` restores the initial position
`(10, 0, 0)` and rotation `(0, 0, 0)` and zeroes the field `steering` of the
object, but `carState.steering` is still `0.04` and not zero. -/
theorem resetCar_keeps_carState_steering :
    (handleKeyDown (loadedGame : Game ℚ) "a").carState.steering = 0.04 ∧
    (resetCar (handleKeyDown (loadedGame : Game ℚ) "a")).carRoot
      = some (⟨10, 0, 0⟩, ⟨0, 0, 0⟩) ∧
    (resetCar (handleKeyDown (loadedGame : Game ℚ) "a")).steering = 0 ∧
    (resetCar (handleKeyDown (loadedGame : Game ℚ) "a")).carState.steering = 0.04 ∧
    (resetCar (handleKeyDown (loadedGame : Game ℚ) "a")).carState.steering ≠ 0 := by
  have hk : (handleKeyDown (loadedGame : Game ℚ) "a").carState.steering = 0.04 := by
    rw [handleKeyDown_a]
    norm_num [setSteering, loadedGame, initialGame, defaultPhysics, initialCarState, clamp]
  have hr := resetCar_carState (handleKeyDown (loadedGame : Game ℚ) "a")
  have hp := resetCar_pose (handleKeyDown (loadedGame : Game ℚ) "a") (⟨10, 0, 0⟩, ⟨0, 0, 0⟩)
    (by rw [handleKeyDown_a]; rfl)
  have hs : (resetCar (handleKeyDown (loadedGame : Game ℚ) "a")).carState.steering = 0.04 := by
    rw [hr.1, hk]
  refine ⟨hk, ?_, hp.2.2.2, hs, by rw [hs]; norm_num⟩
  rw [hp.1, handleKeyDown_a]
  rfl

/-! ### Tire model -/

theorem suspensionForce_nonneg (ph : Physics α) (suspensionLength wheelForceY : α) :
    0 ≤ suspensionForce ph suspensionLength wheelForceY :=
  le_max_right _ _

theorem slipRatio_zero_divisor (ph : Physics α) (wheelForce sf : α)
    (hzero : sf * ph.tireGrip = 0) :
    slipRatio ph wheelForce sf
      = if wheelForce = 0 then .nan else if 0 < wheelForce then .fin 1 else .fin (-1) := by
  unfold slipRatio
  rw [hzero, sub_zero]
  by_cases h0 : wheelForce = 0
  · simp [h0, JSNum.div, JSNum.clamp, JSNum.min, JSNum.max]
  · by_cases hpos : 0 < wheelForce
    · simp [h0, hpos, JSNum.div, JSNum.infOfSign, JSNum.clamp, JSNum.min, JSNum.max]
    · simp [h0, hpos, JSNum.div, JSNum.infOfSign, JSNum.clamp, JSNum.min, JSNum.max]

theorem slipRatio_nonzero_divisor (ph : Physics α) (wheelForce sf : α)
    (hne : sf * ph.tireGrip ≠ 0) :
    slipRatio ph wheelForce sf
      = .fin (clamp ((wheelForce - sf * ph.tireGrip) / (sf * ph.tireGrip)) (-1) 1) := by
  unfold slipRatio
  simp [hne, JSNum.div, JSNum.clamp, JSNum.min, JSNum.max, clamp]

theorem longitudinalForce_of_fin (m : JSMath α) (ph : Physics α) (wheelForce sf r : α)
    (h : slipRatio ph wheelForce sf = .fin r) :
    longitudinalForce m ph wheelForce sf
      = .fin (m.sin (m.atan (3 * r)) * ph.tireGrip * sf) := by
  unfold longitudinalForce
  rw [h]
  rfl

theorem lateralForce_eq (m : JSMath α) (ph : Physics α) (velocity : Vec3 α) (sf : α) :
    lateralForce m ph velocity sf
      = .fin (-m.sin (m.atan (3 * slipAngle m velocity)) * ph.tireGrip * sf) := rfl

theorem abs_shape_mul_le (s grip sf : α) (hs : |s| ≤ 1) (hgrip : 0 ≤ grip) (hsf : 0 ≤ sf) :
    |s * grip * sf| ≤ grip * sf := by
  have hnn : 0 ≤ grip * sf := mul_nonneg hgrip hsf
  rw [mul_assoc, abs_mul, abs_of_nonneg hnn]
  calc |s| * (grip * sf) ≤ 1 * (grip * sf) := mul_le_mul_of_nonneg_right hs hnn
    _ = grip * sf := one_mul _

theorem slipRatio_isFinite_or (ph : Physics α) (wheelForce sf : α)
    (hnum : wheelForce ≠ 0 ∨ sf * ph.tireGrip ≠ 0) :
    ∃ r, slipRatio ph wheelForce sf = .fin r := by
  by_cases hz : sf * ph.tireGrip = 0
  · have hw : wheelForce ≠ 0 := hnum.resolve_right (not_not.2 hz)
    rw [slipRatio_zero_divisor ph wheelForce sf hz, if_neg hw]
    by_cases hpos : 0 < wheelForce
    · exact ⟨1, by rw [if_pos hpos]⟩
    · exact ⟨-1, by rw [if_neg hpos]⟩
  · exact ⟨_, slipRatio_nonzero_divisor ph wheelForce sf hz⟩

/-- C6 as stated fails in the state after the constructor with no key held:
the wheel force is `0`, every suspension force is `0`, the slip ratio is
`0 / 0`, and the longitudinal force is `NaN`, for which the comparison with
`tireGrip * suspensionForces[i]` is false. -/
theorem tire_grip_counterexample :
    wheelForce (defaultPhysics : Physics ℝ) ⟨false, false, false, false, false⟩ = some 0 ∧
    suspensionForces (defaultPhysics : Physics ℝ) initialCarState = [0, 0, 0, 0] ∧
    longitudinalForce
        ⟨Real.sin, Real.tan, Real.arctan, fun y x => Complex.arg ⟨x, y⟩, Real.pi / 2⟩
        (defaultPhysics : Physics ℝ) 0 0 = .nan ∧
    ¬ JSNum.AbsLe
        (longitudinalForce
          ⟨Real.sin, Real.tan, Real.arctan, fun y x => Complex.arg ⟨x, y⟩, Real.pi / 2⟩
          (defaultPhysics : Physics ℝ) 0 0)
        ((defaultPhysics : Physics ℝ).tireGrip * 0) := by
  have hl : longitudinalForce
        ⟨Real.sin, Real.tan, Real.arctan, fun y x => Complex.arg ⟨x, y⟩, Real.pi / 2⟩
        (defaultPhysics : Physics ℝ) 0 0 = .nan := by
    unfold longitudinalForce
    rw [slipRatio_zero_divisor _ _ _ (zero_mul _), if_pos rfl]
    rfl
  refine ⟨?_, ?_, hl, ?_⟩
  · norm_num [wheelForce, currentGearRatio, defaultPhysics, effectiveTorque, throttleInput,
      brakeInput]
  · norm_num [suspensionForces, suspensionForce, initialCarState, defaultPhysics, clamp,
      List.replicate]
  · rw [hl]
    exact fun h => h

/-- C6, amended: with `tireGrip ≥ 0`, `|Math.sin| ≤ 1` and the suspension
force of a wheel as the suspension loop computes it (never negative),
`|lateralForce| ≤ tireGrip * suspensionForces[i]` always holds, and
`|longitudinalForce| ≤ tireGrip * suspensionForces[i]` holds whenever
`wheelForce ≠ 0` or `suspensionForces[i] * tireGrip ≠ 0`. -/
theorem tire_grip_saturation (m : JSMath α) (hsin : ∀ x, |m.sin x| ≤ 1) (ph : Physics α)
    (hgrip : 0 ≤ ph.tireGrip) (wheelForce suspensionLength wheelForceY : α)
    (velocity : Vec3 α) :
    0 ≤ suspensionForce ph suspensionLength wheelForceY ∧
    JSNum.AbsLe
      (lateralForce m ph velocity (suspensionForce ph suspensionLength wheelForceY))
      (ph.tireGrip * suspensionForce ph suspensionLength wheelForceY) ∧
    (wheelForce ≠ 0 ∨ suspensionForce ph suspensionLength wheelForceY * ph.tireGrip ≠ 0 →
      JSNum.AbsLe
        (longitudinalForce m ph wheelForce (suspensionForce ph suspensionLength wheelForceY))
        (ph.tireGrip * suspensionForce ph suspensionLength wheelForceY)) := by
  have hsf := suspensionForce_nonneg ph suspensionLength wheelForceY
  refine ⟨hsf, ?_, ?_⟩
  · rw [lateralForce_eq]
    exact abs_shape_mul_le _ _ _ (by rw [abs_neg]; exact hsin _) hgrip hsf
  · intro hnum
    obtain ⟨r, hr⟩ := slipRatio_isFinite_or ph wheelForce _ hnum
    rw [longitudinalForce_of_fin m ph wheelForce _ r hr]
    exact abs_shape_mul_le _ _ _ (hsin _) hgrip hsf

/-- C6, amended, in the state after the constructor with a wheel force of
`500`: both forces are within the bound `2.2 * 0`. -/
theorem tire_grip_saturation_witness :
    JSNum.AbsLe
      (lateralForce
        ⟨Real.sin, Real.tan, Real.arctan, fun y x => Complex.arg ⟨x, y⟩, Real.pi / 2⟩
        (defaultPhysics : Physics ℝ) ⟨0, 0, 0⟩ (suspensionForce defaultPhysics 0.3 0))
      ((defaultPhysics : Physics ℝ).tireGrip * suspensionForce defaultPhysics 0.3 0) ∧
    JSNum.AbsLe
      (longitudinalForce
        ⟨Real.sin, Real.tan, Real.arctan, fun y x => Complex.arg ⟨x, y⟩, Real.pi / 2⟩
        (defaultPhysics : Physics ℝ) 500 (suspensionForce defaultPhysics 0.3 0))
      ((defaultPhysics : Physics ℝ).tireGrip * suspensionForce defaultPhysics 0.3 0) :=
  have h := tire_grip_saturation
    ⟨Real.sin, Real.tan, Real.arctan, fun y x => Complex.arg ⟨x, y⟩, Real.pi / 2⟩
    Real.abs_sin_le_one defaultPhysics (by norm_num [defaultPhysics]) 500 0.3 0 ⟨0, 0, 0⟩
  ⟨h.2.1, h.2.2 (Or.inl (by norm_num))⟩

/-! ### Division by zero -/

theorem steer_of_tan_zero (m : JSMath α) (maxSteer : α) (ph : Physics α) (steering : α)
    (htan : m.tan (steerAngle maxSteer steering) = 0) (hwb : ph.wheelBase ≠ 0) :
    leftSteer m maxSteer ph steering = .fin (m.atan 0) ∧
    rightSteer m maxSteer ph steering = .fin (m.atan 0) := by
  unfold leftSteer rightSteer
  simp only [JSMath.tanJS, htan]
  by_cases hpos : 0 < ph.wheelBase
  · simp [JSNum.div, JSNum.sub, JSNum.add, JSNum.neg, JSNum.infOfSign, JSMath.atanJS, hwb, hpos]
  · simp [JSNum.div, JSNum.sub, JSNum.add, JSNum.neg, JSNum.infOfSign, JSMath.atanJS, hwb, hpos]

/-- C8 as stated fails in the state after the constructor with no key held:
every suspension force is `0`, so the divisor of the slip-ratio formula is
`0`; the quotient `0 / 0` is taken and the slip ratio is `NaN`, not a finite
number and not zero. -/
theorem division_guard_counterexample :
    wheelForce (defaultPhysics : Physics ℚ) ⟨false, false, false, false, false⟩ = some 0 ∧
    suspensionForces (defaultPhysics : Physics ℚ) initialCarState = [0, 0, 0, 0] ∧
    (0 : ℚ) * (defaultPhysics : Physics ℚ).tireGrip = 0 ∧
    slipRatio (defaultPhysics : Physics ℚ) 0 0 = .nan ∧
    ¬ JSNum.IsFinite (slipRatio (defaultPhysics : Physics ℚ) 0 0) := by
  have hs : slipRatio (defaultPhysics : Physics ℚ) 0 0 = .nan := by
    rw [slipRatio_zero_divisor _ _ _ (zero_mul _), if_pos rfl]
  refine ⟨?_, ?_, zero_mul _, hs, ?_⟩
  · norm_num [wheelForce, currentGearRatio, defaultPhysics, effectiveTorque, throttleInput,
      brakeInput]
  · norm_num [suspensionForces, suspensionForce, initialCarState, defaultPhysics, clamp,
      List.replicate]
  · rw [hs]
    exact fun h => h

/-- C8, amended: the divisions are taken without a guard.  When
`suspensionForces[i] * tireGrip = 0` the slip ratio is `NaN` for
`wheelForce = 0`, `1` for `wheelForce > 0` and `-1` for `wheelForce < 0` (the
clamp of an infinity).  When `tan(steerAngle) = 0` (with `atan(0) = 0` and
`wheelBase ≠ 0`) the quotient `wheelBase / tan(steerAngle)` is an infinity and
`leftSteer` and `rightSteer` are the finite number `0`. -/
theorem division_by_zero_results (m : JSMath α) (ph : Physics α)
    (wheelForce sf maxSteer steering : α) :
    (sf * ph.tireGrip = 0 →
      slipRatio ph wheelForce sf
        = (if wheelForce = 0 then .nan else if 0 < wheelForce then .fin 1 else .fin (-1))) ∧
    (m.tan (steerAngle maxSteer steering) = 0 → m.atan 0 = 0 → ph.wheelBase ≠ 0 →
      JSNum.div (.fin ph.wheelBase) (m.tanJS (.fin (steerAngle maxSteer steering)))
        = JSNum.infOfSign ph.wheelBase ∧
      leftSteer m maxSteer ph steering = .fin 0 ∧
      rightSteer m maxSteer ph steering = .fin 0) := by
  refine ⟨slipRatio_zero_divisor ph wheelForce sf, ?_⟩
  intro htan hatan hwb
  have h := steer_of_tan_zero m maxSteer ph steering htan hwb
  rw [hatan] at h
  refine ⟨?_, h.1, h.2⟩
  simp [JSMath.tanJS, htan, JSNum.div, hwb]

/-- C8, amended, in the state after the constructor (`steering = 0`, all
suspension forces `0`) with a wheel force of `500`. -/
theorem division_by_zero_results_witness :
    slipRatio (defaultPhysics : Physics ℝ) 500 0 = .fin 1 ∧
    leftSteer ⟨Real.sin, Real.tan, Real.arctan, fun y x => Complex.arg ⟨x, y⟩, Real.pi / 2⟩
      (Real.pi / 4) (defaultPhysics : Physics ℝ) 0 = .fin 0 ∧
    rightSteer ⟨Real.sin, Real.tan, Real.arctan, fun y x => Complex.arg ⟨x, y⟩, Real.pi / 2⟩
      (Real.pi / 4) (defaultPhysics : Physics ℝ) 0 = .fin 0 := by
  have hsteer : steerAngle (Real.pi / 4) 0 = 0 := by
    unfold steerAngle clamp
    have hp := Real.pi_pos
    rw [min_eq_right (by linarith), max_eq_right (by linarith)]
  have h := division_by_zero_results
    ⟨Real.sin, Real.tan, Real.arctan, fun y x => Complex.arg ⟨x, y⟩, Real.pi / 2⟩
    (defaultPhysics : Physics ℝ) 500 0 (Real.pi / 4) 0
  have h2 := h.2 (by rw [hsteer]; exact Real.tan_zero) Real.arctan_zero
    (by norm_num [defaultPhysics])
  refine ⟨?_, h2.2.1, h2.2.2⟩
  rw [h.1 (zero_mul _)]
  norm_num

/-! ### Velocity damping -/

theorem dampingFactorFirst_default (speed deltaTime : α) :
    dampingFactorFirst (defaultPhysics : Physics α) speed deltaTime
      = 1 - (1.2 + 0.004 * speed) * deltaTime := by
  simp only [dampingFactorFirst, defaultPhysics]
  have h1 : (12 : α) * 0.1 = 1.2 := by norm_num
  have h2 : (0.4 : α) * speed * 0.01 = 0.004 * speed := by ring_nf
  rw [h1, h2]

theorem dampingFactor_default (deltaTime : α) :
    dampingFactor (defaultPhysics : Physics α) deltaTime = 1 - 12.4 * deltaTime := by
  simp only [dampingFactor, defaultPhysics]
  norm_num

/-- C11 as stated fails: at `deltaTime = 0.1` the second damping step
multiplies by `1 - 12.4 * 0.1 = -0.24`, so the velocity `(0, 0, 5)` becomes
`(0, 0, -1.2)`; and at `deltaTime = 0.1` and speed `3000` (velocity
`(0, 0, 3000)`) the first damping step multiplies by `-0.32`. -/
theorem velocity_damping_counterexample :
    dampingFactor (defaultPhysics : Physics ℚ) 0.1 = -0.24 ∧
    dampVelocity (defaultPhysics : Physics ℚ) ⟨0, 0, 5⟩ 0.1 = ⟨0, 0, -1.2⟩ ∧
    dampingFactorFirst (defaultPhysics : Physics ℚ) 3000 0.1 = -0.32 ∧
    dampVelocityFirst (defaultPhysics : Physics ℚ) ⟨0, 0, 3000⟩ 3000 0.1 = ⟨0, 0, -960⟩ := by
  have h1 : dampingFactor (defaultPhysics : Physics ℚ) 0.1 = -0.24 := by
    rw [dampingFactor_default]; norm_num
  have h2 : dampingFactorFirst (defaultPhysics : Physics ℚ) 3000 0.1 = -0.32 := by
    rw [dampingFactorFirst_default]; norm_num
  refine ⟨h1, ?_, h2, ?_⟩
  · rw [dampVelocity, h1]; norm_num [Vec3.multiplyScalar]
  · rw [dampVelocityFirst, h2]; norm_num [Vec3.multiplyScalar]

/-- C11, amended: with the default configuration, `0 ≤ deltaTime ≤ 0.1` and
a speed `≥ 0`, both damping steps multiply the velocity by a factor `≤ 1`;
the factor of the first step is `≥ 0` exactly when
`(1.2 + 0.004 * speed) * deltaTime ≤ 1`, which holds for every speed up to
2200, and the factor of the second step is `≥ 0` exactly when
`deltaTime ≤ 1 / 12.4`. -/
theorem velocity_damping_factor (speed deltaTime : α)
    (hdt : 0 ≤ deltaTime ∧ deltaTime ≤ 0.1) (hspeed : 0 ≤ speed) (velocity : Vec3 α) :
    dampVelocityFirst (defaultPhysics : Physics α) velocity speed deltaTime
      = velocity.multiplyScalar (dampingFactorFirst defaultPhysics speed deltaTime) ∧
    dampVelocity (defaultPhysics : Physics α) velocity deltaTime
      = velocity.multiplyScalar (dampingFactor defaultPhysics deltaTime) ∧
    dampingFactorFirst (defaultPhysics : Physics α) speed deltaTime ≤ 1 ∧
    (0 ≤ dampingFactorFirst (defaultPhysics : Physics α) speed deltaTime
      ↔ (1.2 + 0.004 * speed) * deltaTime ≤ 1) ∧
    (speed ≤ 2200 → 0 ≤ dampingFactorFirst (defaultPhysics : Physics α) speed deltaTime) ∧
    dampingFactor (defaultPhysics : Physics α) deltaTime ≤ 1 ∧
    (0 ≤ dampingFactor (defaultPhysics : Physics α) deltaTime ↔ deltaTime ≤ 1 / 12.4) := by
  refine ⟨rfl, rfl, ?_⟩
  rw [dampingFactorFirst_default, dampingFactor_default]
  refine ⟨?_, ?_, ?_, ?_, ?_⟩
  · have : 0 ≤ (1.2 + 0.004 * speed) * deltaTime :=
      mul_nonneg (by linarith [mul_nonneg (show (0 : α) ≤ 0.004 by norm_num) hspeed]) hdt.1
    linarith
  · constructor <;> intro h <;> linarith
  · intro h2200
    have h1 : (1.2 + 0.004 * speed) * deltaTime ≤ 10 * 0.1 := by
      apply mul_le_mul _ hdt.2 hdt.1 (by norm_num)
      linarith
    have h2 : (10 : α) * 0.1 = 1 := by norm_num
    linarith
  · have : 0 ≤ (12.4 : α) * deltaTime := mul_nonneg (by norm_num) hdt.1
    linarith
  · constructor
    · intro h
      rw [le_div_iff₀ (by norm_num)]
      linarith
    · intro h
      rw [le_div_iff₀ (by norm_num)] at h
      linarith

/-- C11, amended, at a frame of 16 ms and speed 20. -/
theorem velocity_damping_factor_witness :
    dampingFactorFirst (defaultPhysics : Physics ℚ) 20 0.016 ≤ 1 ∧
    0 ≤ dampingFactorFirst (defaultPhysics : Physics ℚ) 20 0.016 ∧
    dampingFactor (defaultPhysics : Physics ℚ) 0.016 ≤ 1 ∧
    0 ≤ dampingFactor (defaultPhysics : Physics ℚ) 0.016 :=
  have h := velocity_damping_factor (20 : ℚ) 0.016 (by norm_num) (by norm_num) ⟨0, 0, 20⟩
  ⟨h.2.2.1, h.2.2.2.2.1 (by norm_num), h.2.2.2.2.2.1, h.2.2.2.2.2.2.2 (by norm_num)⟩

/-! ### Slip-ratio saturation -/

/-- C12 as stated fails: with suspension length `0.2` the suspension force is
`3` and the available grip is `3 * 2.2 = 6.6`; the wheel force `9.9` exceeds
it, and the slip ratio is `(9.9 - 6.6) / 6.6 = 0.5`, not `1`. -/
theorem slip_ratio_counterexample :
    suspensionForce (defaultPhysics : Physics ℚ) 0.2 0 = 3 ∧
    (0 : ℚ) < 3 * (defaultPhysics : Physics ℚ).tireGrip ∧
    3 * (defaultPhysics : Physics ℚ).tireGrip < 9.9 ∧
    slipRatio (defaultPhysics : Physics ℚ) 9.9 3 = .fin 0.5 ∧
    slipRatio (defaultPhysics : Physics ℚ) 9.9 3 ≠ .fin 1 := by
  have hs : slipRatio (defaultPhysics : Physics ℚ) 9.9 3 = .fin 0.5 := by
    rw [slipRatio_nonzero_divisor _ _ _ (by norm_num [defaultPhysics])]
    norm_num [defaultPhysics, clamp]
  refine ⟨?_, ?_, ?_, hs, ?_⟩
  · norm_num [suspensionForce, defaultPhysics, clamp]
  · norm_num [defaultPhysics]
  · norm_num [defaultPhysics]
  · rw [hs]
    intro h
    injection h with h
    norm_num at h

/-- C12, amended: for a wheel with positive available grip
`G = suspensionForces[i] * tireGrip`, the slip ratio is the finite number
`clamp((wheelForce - G) / G, -1, 1)`, which lies in `[-1, 1]`; it is `1`
exactly when `wheelForce ≥ 2 * G`, it is `-1` exactly when `wheelForce ≤ 0`
(so for every `wheelForce < -G`), and for `G < wheelForce < 2 * G` it is
`(wheelForce - G) / G`, strictly between `0` and `1`. -/
theorem slip_ratio_saturation (ph : Physics α) (wheelForce sf : α)
    (hG : 0 < sf * ph.tireGrip) :
    ∃ r, slipRatio ph wheelForce sf = .fin r ∧
      r = clamp ((wheelForce - sf * ph.tireGrip) / (sf * ph.tireGrip)) (-1) 1 ∧
      (-1 ≤ r ∧ r ≤ 1) ∧
      (r = 1 ↔ 2 * (sf * ph.tireGrip) ≤ wheelForce) ∧
      (r = -1 ↔ wheelForce ≤ 0) ∧
      (wheelForce < -(sf * ph.tireGrip) → r = -1) ∧
      (sf * ph.tireGrip < wheelForce → wheelForce < 2 * (sf * ph.tireGrip) →
        r = (wheelForce - sf * ph.tireGrip) / (sf * ph.tireGrip) ∧ 0 < r ∧ r < 1) := by
  refine ⟨_, slipRatio_nonzero_divisor ph wheelForce sf (ne_of_gt hG), rfl,
    clamp_bounds _ _ _ (by norm_num), ?_, ?_, ?_, ?_⟩
  · unfold clamp
    constructor
    · intro h
      by_contra hlt
      push_neg at hlt
      have hq : (wheelForce - sf * ph.tireGrip) / (sf * ph.tireGrip) < 1 := by
        rw [div_lt_one hG]; linarith
      rw [min_eq_right (le_of_lt hq)] at h
      rcases max_choice (-1 : α) ((wheelForce - sf * ph.tireGrip) / (sf * ph.tireGrip))
        with h' | h'
      · rw [h'] at h; norm_num at h
      · rw [h'] at h; linarith
    · intro h
      have hq : 1 ≤ (wheelForce - sf * ph.tireGrip) / (sf * ph.tireGrip) := by
        rw [le_div_iff₀ hG]; linarith
      rw [min_eq_left hq, max_eq_right (by norm_num)]
  · unfold clamp
    constructor
    · intro h
      by_contra hlt
      push_neg at hlt
      have hq : -1 < (wheelForce - sf * ph.tireGrip) / (sf * ph.tireGrip) := by
        rw [lt_div_iff₀ hG]; linarith
      have hm : -1 < min 1 ((wheelForce - sf * ph.tireGrip) / (sf * ph.tireGrip)) :=
        lt_min (by norm_num) hq
      rw [max_eq_right (le_of_lt hm)] at h
      linarith
    · intro h
      have hq : (wheelForce - sf * ph.tireGrip) / (sf * ph.tireGrip) ≤ -1 := by
        rw [div_le_iff₀ hG]; linarith
      rw [min_eq_right (le_trans hq (by norm_num)), max_eq_left hq]
  · intro h
    unfold clamp
    have hq : (wheelForce - sf * ph.tireGrip) / (sf * ph.tireGrip) ≤ -1 := by
      rw [div_le_iff₀ hG]; linarith
    rw [min_eq_right (le_trans hq (by norm_num)), max_eq_left hq]
  · intro h1 h2
    have hq0 : 0 < (wheelForce - sf * ph.tireGrip) / (sf * ph.tireGrip) :=
      div_pos (by linarith) hG
    have hq1 : (wheelForce - sf * ph.tireGrip) / (sf * ph.tireGrip) < 1 := by
      rw [div_lt_one hG]; linarith
    unfold clamp
    rw [min_eq_right (le_of_lt hq1), max_eq_right (by linarith)]
    exact ⟨rfl, hq0, hq1⟩

/-- C12, amended, with suspension force `3` (grip `6.6`) and wheel force
`20`, above twice the grip: the slip ratio is `1`. -/
theorem slip_ratio_saturation_witness :
    (0 : ℚ) < 3 * (defaultPhysics : Physics ℚ).tireGrip ∧
    slipRatio (defaultPhysics : Physics ℚ) 20 3 = .fin 1 := by
  have hG : (0 : ℚ) < 3 * (defaultPhysics : Physics ℚ).tireGrip := by
    norm_num [defaultPhysics]
  obtain ⟨r, hr, -, -, h1, -⟩ := slip_ratio_saturation (defaultPhysics : Physics ℚ) 20 3 hG
  refine ⟨hG, ?_⟩
  rw [hr, h1.2 (by norm_num [defaultPhysics])]

/-! ### Torque at 3000 RPM -/

/-- C13 as stated fails: at 3000 RPM with `W` held the default curve gives a
torque that is not within `0.01` of `373.33`. -/
theorem torque_at_3000_counterexample :
    ¬ |effectiveTorque (defaultTorqueCurve : List (ℚ × ℚ)) 3000
        ⟨true, false, false, false, false⟩ - 373.33| ≤ 0.01 := by
  have h : effectiveTorque (defaultTorqueCurve : List (ℚ × ℚ)) 3000
      ⟨true, false, false, false, false⟩ = 350 := by
    norm_num [effectiveTorque, torqueLoop, defaultTorqueCurve, throttleInput, lerp]
  rw [h]
  norm_num [abs_le]

/-- C13, amended: with the default torque curve, `engineRPM = 3000` and
throttle 1 (`W` held), the torque of the lookup is
`lerp(280, 420, (3000 - 1500) / (4500 - 1500)) = lerp(280, 420, 0.5) = 350`. -/
theorem torque_at_3000 :
    (((3000 : α) - 1500) / (4500 - 1500) = 0.5) ∧
    lerp (280 : α) 420 0.5 = 350 ∧
    torqueLoop (defaultTorqueCurve : List (α × α)) 3000 = 350 ∧
    effectiveTorque (defaultTorqueCurve : List (α × α)) 3000
      ⟨true, false, false, false, false⟩ = 350 := by
  have ht : torqueLoop (defaultTorqueCurve : List (α × α)) 3000 = 350 := by
    norm_num [torqueLoop, defaultTorqueCurve, lerp]
  refine ⟨by norm_num, by norm_num [lerp], ht, ?_⟩
  rw [effectiveTorque, ht]
  norm_num [throttleInput]

/-! ### Steering decay -/

theorem steeringDecay_abs_le (x : α) : |steeringDecay x| ≤ 0.8 * |x| := by
  unfold steeringDecay
  split_ifs
  · rw [abs_zero]
    exact mul_nonneg (by norm_num) (abs_nonneg x)
  · rw [abs_mul, abs_of_pos (show (0 : α) < 0.8 by norm_num), mul_comm]

theorem steeringDecay_zero : steeringDecay (0 : α) = 0 := by
  unfold steeringDecay
  split_ifs <;> simp

theorem steeringDecay_iterate_zero (n : ℕ) : steeringDecay^[n] (0 : α) = 0 := by
  induction n with
  | zero => rfl
  | succ k ih => rw [Function.iterate_succ_apply', ih, steeringDecay_zero]

theorem steeringDecay_iterate_abs_le (s : α) (n : ℕ) :
    |steeringDecay^[n] s| ≤ 0.8 ^ n * |s| := by
  induction n with
  | zero => simp
  | succ k ih =>
    rw [Function.iterate_succ_apply']
    calc |steeringDecay (steeringDecay^[k] s)|
        ≤ 0.8 * |steeringDecay^[k] s| := steeringDecay_abs_le _
      _ ≤ 0.8 * (0.8 ^ k * |s|) := mul_le_mul_of_nonneg_left ih (by norm_num)
      _ = 0.8 ^ (k + 1) * |s| := by ring

theorem handleKeyUp_steer (g : Game α) :
    handleKeyUp g "a" = setSteering g (steeringDecay g.carState.steering) ∧
    handleKeyUp g "d" = setSteering g (steeringDecay g.carState.steering) := by
  constructor
  · have h1 : keyUpThrottle g "a" = g := if_neg (by decide)
    have h2 : keyUpBrake g "a" = g := if_neg (by decide)
    unfold handleKeyUp
    rw [h1, h2]
    exact if_pos (Or.inl rfl)
  · have h1 : keyUpThrottle g "d" = g := if_neg (by decide)
    have h2 : keyUpBrake g "d" = g := if_neg (by decide)
    unfold handleKeyUp
    rw [h1, h2]
    exact if_pos (Or.inr rfl)

/-- C14: a release of a steer key (`a` or `d`) maps `carState.steering = s`
to `0.8 * s` when `|0.8 * s| ≥ 0.01` and to `0` otherwise; for `|s| ≤ 0.45`
(the steering clamp) the 18th release gives exactly `0` and every later one
too, the magnitude never increases from one release to the next, and `0` is
mapped to `0`. -/
theorem steering_decay_reaches_zero (s : α) (hs : |s| ≤ 0.45) (g : Game α) :
    (handleKeyUp g "a").carState.steering = steeringDecay g.carState.steering ∧
    (handleKeyUp g "d").carState.steering = steeringDecay g.carState.steering ∧
    steeringDecay s = (if 0.01 ≤ |0.8 * s| then 0.8 * s else 0) ∧
    steeringDecay^[18] s = 0 ∧
    (∀ n, 18 ≤ n → steeringDecay^[n] s = 0) ∧
    (∀ n, |steeringDecay^[n + 1] s| ≤ |steeringDecay^[n] s|) ∧
    steeringDecay (0 : α) = 0 := by
  have h18 : steeringDecay^[18] s = 0 := by
    rw [Function.iterate_succ_apply']
    have h17 := steeringDecay_iterate_abs_le s 17
    have hb : |steeringDecay^[17] s * 0.8| < 0.01 := by
      rw [abs_mul, abs_of_pos (show (0 : α) < 0.8 by norm_num)]
      have h1 : (0.8 : α) ^ 17 * |s| ≤ 0.8 ^ 17 * 0.45 :=
        mul_le_mul_of_nonneg_left hs (by positivity)
      have h2 : (0.8 : α) ^ 17 * 0.45 * 0.8 < 0.01 := by norm_num
      have h3 : |steeringDecay^[17] s| * 0.8 ≤ 0.8 ^ 17 * 0.45 * 0.8 :=
        mul_le_mul_of_nonneg_right (le_trans h17 h1) (by norm_num)
      exact lt_of_le_of_lt h3 h2
    exact if_pos hb
  refine ⟨by rw [(handleKeyUp_steer g).1]; rfl, by rw [(handleKeyUp_steer g).2]; rfl,
    ?_, h18, ?_, ?_, steeringDecay_zero⟩
  · unfold steeringDecay
    rw [mul_comm s 0.8]
    by_cases h : |0.8 * s| < 0.01
    · rw [if_pos h, if_neg (not_le.2 h)]
    · rw [if_neg h, if_pos (not_lt.1 h)]
  · intro n hn
    obtain ⟨k, rfl⟩ := Nat.exists_eq_add_of_le hn
    rw [add_comm, Function.iterate_add_apply, h18, steeringDecay_iterate_zero]
  · intro n
    rw [Function.iterate_succ_apply']
    calc |steeringDecay (steeringDecay^[n] s)|
        ≤ 0.8 * |steeringDecay^[n] s| := steeringDecay_abs_le _
      _ ≤ 1 * |steeringDecay^[n] s| :=
          mul_le_mul_of_nonneg_right (by norm_num) (abs_nonneg _)
      _ = |steeringDecay^[n] s| := one_mul _

/-- C14 from full lock `s = 0.45` on the loaded initial object. -/
theorem steering_decay_reaches_zero_witness :
    |(0.45 : ℚ)| ≤ 0.45 ∧
    steeringDecay^[18] (0.45 : ℚ) = 0 ∧
    (handleKeyUp (loadedGame : Game ℚ) "a").carState.steering
      = steeringDecay (loadedGame : Game ℚ).carState.steering :=
  have hs : |(0.45 : ℚ)| ≤ 0.45 := by norm_num [abs_le]
  have h := steering_decay_reaches_zero (0.45 : ℚ) hs loadedGame
  ⟨hs, h.2.2.2.1, h.1⟩

/-! ### Sequences of ticks -/

omit [LinearOrderedField α] in
theorem tick_eq (g : Game α) (deltaTime : α) : tick g deltaTime = g := by
  unfold tick updateCarPhysics
  cases g.carRoot <;> rfl

omit [LinearOrderedField α] in
theorem runTicks_eq (n : ℕ) (g : Game α) (deltaTime : α) : runTicks n g deltaTime = g := by
  induction n generalizing g with
  | zero => rfl
  | succ k ih => rw [runTicks, tick_eq, ih]

theorem tireForces_at_rest (m : JSMath α) (wf : α) (hwf : wf ≠ 0) :
    tireForces m (defaultPhysics : Physics α) ⟨0, 0, 0⟩ wf [0, 0, 0, 0]
      = List.replicate 4 ⟨.fin 0, .fin 0, .fin 0⟩ := by
  have hl : longitudinalForce m (defaultPhysics : Physics α) wf 0 = .fin 0 := by
    obtain ⟨r, hr⟩ := slipRatio_isFinite_or (defaultPhysics : Physics α) wf 0 (Or.inl hwf)
    rw [longitudinalForce_of_fin m _ wf 0 r hr, mul_zero]
  have hlat : lateralForce m (defaultPhysics : Physics α) ⟨0, 0, 0⟩ 0 = .fin 0 := by
    rw [lateralForce_eq, mul_zero]
  simp only [tireForces, List.map, hl, hlat, List.replicate]

/-- C15 at the loaded object after the constructor with `W` held and ticks of
`deltaTime = 0.016`: every tick ends at line 562 with a `ReferenceError`, and
after any number `n` of ticks the velocity is still `(0, 0, 0)`, so the
forward speed after the first tick is not greater than `0`; the gear stays
`1`.  The same holds before the model is loaded, where line 470 returns, and
with no key held.  Besides, the suspension forces of that state are all `0`, so that the wheel
force `wf > 0` of that state gives four zero tire forces, whatever the `Math`
functions are. -/
theorem acceleration_from_rest_stays_at_rest (n : ℕ) (m : JSMath ℚ) :
    (updateCarPhysics
        ({ (loadedGame : Game ℚ) with keys := ⟨true, false, false, false, false⟩ }) 0.016).thrown
      = some "ReferenceError: acceleration" ∧
    (runTicks n ({ (loadedGame : Game ℚ) with keys := ⟨true, false, false, false, false⟩ })
        0.016).carState.velocity = ⟨0, 0, 0⟩ ∧
    ¬ (0 < (runTicks 1 ({ (loadedGame : Game ℚ) with keys := ⟨true, false, false, false, false⟩ })
        0.016).carState.velocity.z) ∧
    (runTicks n ({ (loadedGame : Game ℚ) with keys := ⟨true, false, false, false, false⟩ })
        0.016).physics.currentGear = 1 ∧
    (runTicks n ({ (initialGame : Game ℚ) with keys := ⟨true, false, false, false, false⟩ })
        0.016).carState.velocity = ⟨0, 0, 0⟩ ∧
    (runTicks n (loadedGame : Game ℚ) 0.016).carState.velocity = ⟨0, 0, 0⟩ ∧
    suspensionForces (defaultPhysics : Physics ℚ) initialCarState = [0, 0, 0, 0] ∧
    (∃ wf, wheelForce (defaultPhysics : Physics ℚ) ⟨true, false, false, false, false⟩ = some wf ∧
      0 < wf ∧
      tireForces m (defaultPhysics : Physics ℚ) ⟨0, 0, 0⟩ wf
          (suspensionForces (defaultPhysics : Physics ℚ) initialCarState)
        = List.replicate 4 ⟨.fin 0, .fin 0, .fin 0⟩) := by
  have hsf : suspensionForces (defaultPhysics : Physics ℚ) initialCarState = [0, 0, 0, 0] := by
    norm_num [suspensionForces, suspensionForce, initialCarState, defaultPhysics, clamp,
      List.replicate]
  refine ⟨rfl, ?_, ?_, ?_, ?_, ?_, hsf, ?_⟩
  · rw [runTicks_eq]; rfl
  · rw [runTicks_eq]; exact lt_irrefl _
  · rw [runTicks_eq]; rfl
  · rw [runTicks_eq]; rfl
  · rw [runTicks_eq]; rfl
  · have hwf : wheelForce (defaultPhysics : Physics ℚ) ⟨true, false, false, false, false⟩
        = some (41104 / 21) := by
      norm_num [wheelForce, currentGearRatio, defaultPhysics, effectiveTorque, throttleInput,
        brakeInput, torqueLoop, defaultTorqueCurve, lerp]
    refine ⟨_, hwf, by norm_num, ?_⟩
    rw [hsf]
    exact tireForces_at_rest m _ (by norm_num)

/-! ### Key events -/

theorem withoutInputFields_keys (g : Game α) :
    (withoutInputFields g).keys = g.keys ∧ (withoutInputFields g).physics = g.physics ∧
    (withoutInputFields g).carRoot = g.carRoot :=
  ⟨rfl, rfl, rfl⟩

theorem handleKeyDown_withoutInputFields (g : Game α) (key : String) :
    withoutInputFields (handleKeyDown g key) = withoutInputFields g := by
  have h1 : withoutInputFields (keyDownThrottle g key) = withoutInputFields g := by
    unfold keyDownThrottle; split_ifs <;> rfl
  have h2 : ∀ x : Game α, withoutInputFields (keyDownBrake x key) = withoutInputFields x := by
    intro x; unfold keyDownBrake; split_ifs <;> rfl
  have h3 : ∀ x : Game α,
      withoutInputFields (keyDownSteerLeft x key) = withoutInputFields x := by
    intro x; unfold keyDownSteerLeft; split_ifs <;> rfl
  have h4 : ∀ x : Game α,
      withoutInputFields (keyDownSteerRight x key) = withoutInputFields x := by
    intro x; unfold keyDownSteerRight; split_ifs <;> rfl
  unfold handleKeyDown
  rw [h4, h3, h2, h1]

theorem handleKeyUp_withoutInputFields (g : Game α) (key : String) :
    withoutInputFields (handleKeyUp g key) = withoutInputFields g := by
  have h1 : withoutInputFields (keyUpThrottle g key) = withoutInputFields g := by
    unfold keyUpThrottle; split_ifs <;> rfl
  have h2 : ∀ x : Game α, withoutInputFields (keyUpBrake x key) = withoutInputFields x := by
    intro x; unfold keyUpBrake; split_ifs <;> rfl
  have h3 : ∀ x : Game α, withoutInputFields (keyUpSteer x key) = withoutInputFields x := by
    intro x; unfold keyUpSteer; split_ifs <;> rfl
  unfold handleKeyUp
  rw [h3, h2, h1]

theorem applyKeyEvents_withoutInputFields (events : List KeyEvent) (g : Game α) :
    withoutInputFields (applyKeyEvents g events) = withoutInputFields g := by
  induction events generalizing g with
  | nil => rfl
  | cons e rest ih =>
    have hstep : withoutInputFields (applyKeyEvent g e) = withoutInputFields g := by
      cases e with
      | down key => exact handleKeyDown_withoutInputFields g key
      | up key => exact handleKeyUp_withoutInputFields g key
    have := ih (applyKeyEvent g e)
    rw [hstep] at this
    exact this

/-- C16: the key handlers in force (the second definitions) never write a
field of `keys`: after any sequence of key-down and key-up events the object
differs from the one before at most in `carState.engineTorque`,
`carState.brakeTorque` and `carState.steering`; from the constructed object
every flag of `keys` is still false and `throttleInput`, `brakeInput` and
`steerInput` are `0`, also after a tick.  (The first definitions, which are
replaced, do write the flags: the first `handleKeyDown` sets `keys.W` on
`w`.) -/
theorem dead_input_path (events : List KeyEvent) (g : Game α) (deltaTime : α) :
    withoutInputFields (applyKeyEvents g events) = withoutInputFields g ∧
    (applyKeyEvents g events).keys = g.keys ∧
    (applyKeyEvents (initialGame : Game α) events).keys
      = ⟨false, false, false, false, false⟩ ∧
    throttleInput (applyKeyEvents (initialGame : Game α) events).keys = (0 : α) ∧
    brakeInput (applyKeyEvents (initialGame : Game α) events).keys = (0 : α) ∧
    steerInput (applyKeyEvents (initialGame : Game α) events).keys = (0 : α) ∧
    (tick (applyKeyEvents (initialGame : Game α) events) deltaTime).keys
      = ⟨false, false, false, false, false⟩ ∧
    (handleKeyDownFirst (initialGame : Game α) "w").keys.W = true ∧
    (handleKeyDown (initialGame : Game α) "w").keys.W = false := by
  have hk : ∀ x : Game α, (applyKeyEvents x events).keys = x.keys := by
    intro x
    have h := congrArg Game.keys (applyKeyEvents_withoutInputFields events x)
    exact h
  have h0 : (applyKeyEvents (initialGame : Game α) events).keys
      = ⟨false, false, false, false, false⟩ := by
    rw [hk]; rfl
  refine ⟨applyKeyEvents_withoutInputFields events g, hk g, h0, ?_, ?_, ?_, ?_, ?_, ?_⟩
  · rw [h0]; simp [throttleInput]
  · rw [h0]; simp [brakeInput]
  · rw [h0]; simp [steerInput]
  · rw [tick_eq, h0]
  · have hne : ¬ "w".toLower = "r" := by with_unfolding_all decide
    have hw : (keysDownFirst ⟨false, false, false, false, false⟩ "w").W = true := by
      with_unfolding_all decide
    unfold handleKeyDownFirst
    rw [if_neg hne]
    exact hw
  · have h := congrArg Game.keys
      (handleKeyDown_withoutInputFields (initialGame : Game α) "w")
    have h' : (handleKeyDown (initialGame : Game α) "w").keys = (initialGame : Game α).keys := h
    rw [h']
    rfl

/-! ### The physics step, statement by statement -/

theorem updateCarPhysicsLines_source (math : JSMath α) (sqrt : α → α) (maxSteer : α)
    (wheelChild : Bool) (g : Game α) (deltaTime : JSNum α) (d : α) :
    updateCarPhysicsLines (sourceEnv math sqrt maxSteer wheelChild) g deltaTime
      = ⟨Written.init g, (updateCarPhysics g d).thrown⟩ := by
  unfold updateCarPhysicsLines updateCarPhysics
  cases g.carRoot <;> rfl

omit [LinearOrderedField α] in
theorem SteerOnly.refl (r : StepResult α) : SteerOnly r r :=
  ⟨r.written.steering, r.written.wheelAngles, rfl⟩

omit [LinearOrderedField α] in
theorem SteerOnly.andThen {r1 r2 : StepResult α} (h : SteerOnly r1 r2)
    (f : Written α → StepResult α)
    (hf : ∀ w s l, SteerOnly (f w) (f (w.setSteer s l))) :
    SteerOnly (r1.andThen f) (r2.andThen f) := by
  obtain ⟨s, l, rfl⟩ := h
  unfold StepResult.andThen
  cases ht : r1.thrown with
  | none => exact hf r1.written s l
  | some e => exact ⟨s, l, by rw [ht]⟩

theorem shiftFirst_setSteer (w : Written α) (s : α) (l : List (JSNum α)) :
    shiftFirst (w.setSteer s l) = (shiftFirst w).setSteer s l := by
  unfold shiftFirst
  simp only [Written.setSteer]
  split_ifs <;> rfl

theorem shiftLast_setSteer (w : Written α) (s : α) (l : List (JSNum α)) :
    shiftLast (w.setSteer s l) = (shiftLast w).setSteer s l := by
  unfold shiftLast
  simp only [Written.setSteer]
  split_ifs <;> rfl

theorem integrateFirst_steerOnly (env : Env α) (g : Game α) (deltaTime : JSNum α)
    (w : Written α) (s : α) (l : List (JSNum α)) :
    SteerOnly (integrateFirst env g deltaTime w)
      (integrateFirst env g deltaTime (w.setSteer s l)) := by
  unfold integrateFirst
  cases env.acceleration with
  | none => exact ⟨s, l, rfl⟩
  | some a =>
    exact ⟨steeringUpdate g.physics s g.keys (speedOf env g.carState.velocity), l, rfl⟩

theorem rotateAndMoveFirst_steerOnly (env : Env α) (g : Game α) (deltaTime : JSNum α)
    (w : Written α) (s : α) (l : List (JSNum α)) :
    SteerOnly (rotateAndMoveFirst env g deltaTime w)
      (rotateAndMoveFirst env g deltaTime (w.setSteer s l)) := by
  unfold rotateAndMoveFirst
  cases angularAcceleration g.physics (tireForcesOf env g) with
  | none => exact ⟨s, l, rfl⟩
  | some a => exact ⟨s, l, rfl⟩

theorem turnWheelsFirst_steerOnly (env : Env α) (w : Written α) (s : α)
    (l : List (JSNum α)) :
    SteerOnly (turnWheelsFirst env w) (turnWheelsFirst env (w.setSteer s l)) := by
  unfold turnWheelsFirst
  split_ifs <;> exact ⟨s, l, rfl⟩

theorem updateEngineRPM_steerOnly (env : Env α) (ph : Physics α) (w : Written α) (s : α)
    (l : List (JSNum α)) :
    SteerOnly (updateEngineRPM env ph w) (updateEngineRPM env ph (w.setSteer s l)) := by
  unfold updateEngineRPM
  cases env.wheelRPM with
  | none => exact ⟨s, l, rfl⟩
  | some a => exact ⟨s, l, rfl⟩

theorem engineFirst_steerOnly (env : Env α) (g : Game α) (w : Written α) (s : α)
    (l : List (JSNum α)) :
    SteerOnly (engineFirst env g w) (engineFirst env g (w.setSteer s l)) := by
  unfold engineFirst
  apply SteerOnly.andThen (updateEngineRPM_steerOnly env g.physics w s l)
  intro w1 s1 l1
  exact ⟨s1, l1, by rw [shiftFirst_setSteer]⟩

theorem engineSecond_steerOnly (env : Env α) (g : Game α) (w : Written α) (s : α)
    (l : List (JSNum α)) :
    SteerOnly (engineSecond env g w) (engineSecond env g (w.setSteer s l)) := by
  unfold engineSecond
  apply SteerOnly.andThen (updateEngineRPM_steerOnly env g.physics w s l)
  intro w1 s1 l1
  exact ⟨s1, l1, by rw [shiftLast_setSteer]⟩

omit [LinearOrderedField α] in
theorem totalCarForceReads_steerOnly (env : Env α) (w : Written α) (s : α)
    (l : List (JSNum α)) :
    SteerOnly (totalCarForceReads env w) (totalCarForceReads env (w.setSteer s l)) := by
  unfold totalCarForceReads
  cases env.aeroDragForce with
  | none => exact ⟨s, l, rfl⟩
  | some a =>
    cases env.aeroLiftForce with
    | none => exact ⟨s, l, rfl⟩
    | some b => exact ⟨s, l, rfl⟩

theorem integrateSecond_steerOnly (env : Env α) (g : Game α) (deltaTime : JSNum α)
    (w : Written α) (s : α) (l : List (JSNum α)) :
    SteerOnly (integrateSecond env g deltaTime w)
      (integrateSecond env g deltaTime (w.setSteer s l)) := by
  unfold integrateSecond
  cases angularAcceleration g.physics (tireForcesOf env g) with
  | none => exact ⟨s, l, rfl⟩
  | some a =>
    exact ⟨s, (l.set 0 (leftSteer env.math env.maxSteer g.physics s)).set 1
      (rightSteer env.math env.maxSteer g.physics s), rfl⟩

theorem runLines_steerOnly (env : Env α) (g : Game α) (deltaTime : JSNum α)
    (w : Written α) (s : α) (l : List (JSNum α)) :
    SteerOnly (runLines env g deltaTime w) (runLines env g deltaTime (w.setSteer s l)) := by
  unfold runLines
  apply SteerOnly.andThen _ _ (engineSecond_steerOnly env g)
  apply SteerOnly.andThen _ _ (integrateSecond_steerOnly env g deltaTime)
  apply SteerOnly.andThen _ _ (totalCarForceReads_steerOnly env)
  apply SteerOnly.andThen _ _ (engineFirst_steerOnly env g)
  apply SteerOnly.andThen _ _ (turnWheelsFirst_steerOnly env)
  apply SteerOnly.andThen _ _ (rotateAndMoveFirst_steerOnly env g deltaTime)
  exact integrateFirst_steerOnly env g deltaTime w s l

theorem runLines_setSteering (env : Env α) (g : Game α) (s : α) (deltaTime : JSNum α)
    (w : Written α) :
    runLines env (setSteering g s) deltaTime w = runLines env g deltaTime w := rfl

theorem updateCarPhysicsLines_steerOnly (env : Env α) (g : Game α) (s : α)
    (deltaTime : JSNum α) :
    SteerOnly (updateCarPhysicsLines env g deltaTime)
      (updateCarPhysicsLines env (setSteering g s) deltaTime) := by
  unfold updateCarPhysicsLines
  have hroot : (setSteering g s).carRoot = g.carRoot := rfl
  have hinit : Written.init (setSteering g s)
      = (Written.init g).setSteer s (Written.init g).wheelAngles := rfl
  rw [hroot, hinit]
  cases g.carRoot with
  | none => exact ⟨s, (Written.init g).wheelAngles, rfl⟩
  | some p =>
    simp only
    rw [runLines_setSteering]
    exact runLines_steerOnly env g deltaTime _ s _

omit [LinearOrderedField α] in
theorem andThen_thrown_none (r : StepResult α) (f : Written α → StepResult α)
    (h : (r.andThen f).thrown = none) :
    r.thrown = none ∧ r.andThen f = f r.written := by
  unfold StepResult.andThen at h ⊢
  cases ht : r.thrown with
  | none => exact ⟨rfl, rfl⟩
  | some e => rw [ht] at h; simp only at h; rw [ht] at h; exact absurd h (by simp)

omit [LinearOrderedField α] in
theorem andThen_keep (r : StepResult α) (f : Written α → StepResult α)
    (hf : ∀ w, (f w).written.steering = w.steering ∧
      (f w).written.wheelAngles = w.wheelAngles) :
    (r.andThen f).written.steering = r.written.steering ∧
    (r.andThen f).written.wheelAngles = r.written.wheelAngles := by
  unfold StepResult.andThen
  cases r.thrown with
  | none => exact hf r.written
  | some e => exact ⟨rfl, rfl⟩

theorem rotateAndMoveFirst_keep (env : Env α) (g : Game α) (deltaTime : JSNum α)
    (w : Written α) :
    (rotateAndMoveFirst env g deltaTime w).written.steering = w.steering ∧
    (rotateAndMoveFirst env g deltaTime w).written.wheelAngles = w.wheelAngles := by
  unfold rotateAndMoveFirst
  cases angularAcceleration g.physics (tireForcesOf env g) <;> exact ⟨rfl, rfl⟩

theorem turnWheelsFirst_keep (env : Env α) (w : Written α) :
    (turnWheelsFirst env w).written.steering = w.steering ∧
    (turnWheelsFirst env w).written.wheelAngles = w.wheelAngles := by
  unfold turnWheelsFirst
  split_ifs <;> exact ⟨rfl, rfl⟩

theorem engineFirst_keep (env : Env α) (g : Game α) (w : Written α) :
    (engineFirst env g w).written.steering = w.steering ∧
    (engineFirst env g w).written.wheelAngles = w.wheelAngles := by
  unfold engineFirst updateEngineRPM
  cases env.wheelRPM with
  | none => exact ⟨rfl, rfl⟩
  | some a =>
    simp only [StepResult.andThen]
    unfold shiftFirst
    split_ifs <;> exact ⟨rfl, rfl⟩

theorem engineSecond_keep (env : Env α) (g : Game α) (w : Written α) :
    (engineSecond env g w).written.steering = w.steering ∧
    (engineSecond env g w).written.wheelAngles = w.wheelAngles := by
  unfold engineSecond updateEngineRPM
  cases env.wheelRPM with
  | none => exact ⟨rfl, rfl⟩
  | some a =>
    simp only [StepResult.andThen]
    unfold shiftLast
    split_ifs <;> exact ⟨rfl, rfl⟩

omit [LinearOrderedField α] in
theorem totalCarForceReads_keep (env : Env α) (w : Written α) :
    (totalCarForceReads env w).written.steering = w.steering ∧
    (totalCarForceReads env w).written.wheelAngles = w.wheelAngles := by
  unfold totalCarForceReads
  cases env.aeroDragForce with
  | none => exact ⟨rfl, rfl⟩
  | some a => cases env.aeroLiftForce <;> exact ⟨rfl, rfl⟩

theorem integrateFirst_steering (env : Env α) (g : Game α) (deltaTime : JSNum α)
    (w : Written α) (h : (integrateFirst env g deltaTime w).thrown = none) :
    (integrateFirst env g deltaTime w).written.steering
      = steeringUpdate g.physics w.steering g.keys (speedOf env g.carState.velocity) ∧
    (integrateFirst env g deltaTime w).written.wheelAngles = w.wheelAngles := by
  unfold integrateFirst at h ⊢
  cases ha : env.acceleration with
  | none => rw [ha] at h; exact absurd h (by simp)
  | some a => exact ⟨rfl, rfl⟩

theorem integrateSecond_wheelAngles (env : Env α) (g : Game α) (deltaTime : JSNum α)
    (w : Written α) (h : (integrateSecond env g deltaTime w).thrown = none) :
    (integrateSecond env g deltaTime w).written.steering = w.steering ∧
    (integrateSecond env g deltaTime w).written.wheelAngles
      = (w.wheelAngles.set 0 (leftSteer env.math env.maxSteer g.physics w.steering)).set 1
          (rightSteer env.math env.maxSteer g.physics w.steering) := by
  unfold integrateSecond at h ⊢
  cases ha : angularAcceleration g.physics (tireForcesOf env g) with
  | none => rw [ha] at h; exact absurd h (by simp)
  | some a => exact ⟨rfl, rfl⟩

theorem runLines_dataflow (env : Env α) (g : Game α) (deltaTime : JSNum α) (w : Written α)
    (h : (runLines env g deltaTime w).thrown = none) :
    (runLines env g deltaTime w).written.steering
      = steeringUpdate g.physics w.steering g.keys (speedOf env g.carState.velocity) ∧
    (runLines env g deltaTime w).written.wheelAngles
      = (w.wheelAngles.set 0
          (leftSteer env.math env.maxSteer g.physics
            (steeringUpdate g.physics w.steering g.keys
              (speedOf env g.carState.velocity)))).set 1
          (rightSteer env.math env.maxSteer g.physics
            (steeringUpdate g.physics w.steering g.keys
              (speedOf env g.carState.velocity))) := by
  unfold runLines at h ⊢
  obtain ⟨h6, -⟩ := andThen_thrown_none _ _ h
  obtain ⟨h5, e6⟩ := andThen_thrown_none _ _ h6
  have h6' := h6
  rw [e6] at h6'
  have d6 := integrateSecond_wheelAngles env g deltaTime _ h6'
  obtain ⟨h4, -⟩ := andThen_thrown_none _ _ h5
  obtain ⟨h3, -⟩ := andThen_thrown_none _ _ h4
  obtain ⟨h2, -⟩ := andThen_thrown_none _ _ h3
  obtain ⟨h1, -⟩ := andThen_thrown_none _ _ h2
  have d1 := integrateFirst_steering env g deltaTime w h1
  constructor
  · rw [(andThen_keep _ _ (engineSecond_keep env g)).1, e6, d6.1,
      (andThen_keep _ _ (totalCarForceReads_keep env)).1,
      (andThen_keep _ _ (engineFirst_keep env g)).1,
      (andThen_keep _ _ (turnWheelsFirst_keep env)).1,
      (andThen_keep _ _ (rotateAndMoveFirst_keep env g deltaTime)).1, d1.1]
  · rw [(andThen_keep _ _ (engineSecond_keep env g)).2, e6, d6.2,
      (andThen_keep _ _ (totalCarForceReads_keep env)).1,
      (andThen_keep _ _ (totalCarForceReads_keep env)).2,
      (andThen_keep _ _ (engineFirst_keep env g)).1,
      (andThen_keep _ _ (engineFirst_keep env g)).2,
      (andThen_keep _ _ (turnWheelsFirst_keep env)).1,
      (andThen_keep _ _ (turnWheelsFirst_keep env)).2,
      (andThen_keep _ _ (rotateAndMoveFirst_keep env g deltaTime)).1,
      (andThen_keep _ _ (rotateAndMoveFirst_keep env g deltaTime)).2, d1.1, d1.2]

theorem tireForcesOf_length (env : Env α) (g : Game α) :
    (tireForcesOf env g).length = (suspensionForces g.physics g.carState).length := by
  unfold tireForcesOf
  cases wheelForce g.physics g.keys with
  | none => simp
  | some wf => simp [tireForces]

theorem angularAcceleration_of_four (ph : Physics α) (l : List (Vec3 (JSNum α)))
    (h : l.length = 4) : ∃ a, angularAcceleration ph l = some a := by
  match l, h with
  | [t0, t1, t2, t3], _ => exact ⟨_, rfl⟩

theorem runLines_completes (env : Env α) (g : Game α) (deltaTime : JSNum α) (w : Written α)
    (hacc : env.acceleration ≠ none) (hwheel : env.wheelChild = false)
    (hrpm : env.wheelRPM ≠ none) (hdrag : env.aeroDragForce ≠ none)
    (hlift : env.aeroLiftForce ≠ none)
    (hfour : (suspensionForces g.physics g.carState).length = 4) :
    (runLines env g deltaTime w).thrown = none := by
  obtain ⟨a, ha⟩ := Option.ne_none_iff_exists'.1 hacc
  obtain ⟨r, hr⟩ := Option.ne_none_iff_exists'.1 hrpm
  obtain ⟨d, hd⟩ := Option.ne_none_iff_exists'.1 hdrag
  obtain ⟨f, hf⟩ := Option.ne_none_iff_exists'.1 hlift
  obtain ⟨aa, haa⟩ := angularAcceleration_of_four g.physics (tireForcesOf env g)
    (by rw [tireForcesOf_length, hfour])
  simp [runLines, StepResult.andThen, integrateFirst, rotateAndMoveFirst, turnWheelsFirst,
    engineFirst, totalCarForceReads, integrateSecond, engineSecond, updateEngineRPM,
    ha, hr, hd, hf, haa, hwheel]

/-! ### Steering and motion -/

/-- C17: for an object `g` and the object `setSteering g s`, which agrees with
it on everything except `carState.steering`, one `updateCarPhysics` step with
the same `deltaTime` ends the same way and assigns the same velocity, angular
velocity, car position and rotation, gear and engine RPM, whatever the reads
of the undefined identifiers yield (so also in the source, where the first of
them throws and nothing is assigned).  When the step runs to its end, the new
steering angle is the steering update of the old one and `wheelAngles[0]`,
`wheelAngles[1]` are `leftSteer` and `rightSteer` of the new steering
angle. -/
theorem steering_does_not_influence_motion (env : Env α) (g : Game α) (s : α)
    (deltaTime : JSNum α) :
    (updateCarPhysicsLines env (setSteering g s) deltaTime).thrown
      = (updateCarPhysicsLines env g deltaTime).thrown ∧
    (updateCarPhysicsLines env (setSteering g s) deltaTime).written.velocity
      = (updateCarPhysicsLines env g deltaTime).written.velocity ∧
    (updateCarPhysicsLines env (setSteering g s) deltaTime).written.angularVelocity
      = (updateCarPhysicsLines env g deltaTime).written.angularVelocity ∧
    (updateCarPhysicsLines env (setSteering g s) deltaTime).written.pose
      = (updateCarPhysicsLines env g deltaTime).written.pose ∧
    (updateCarPhysicsLines env (setSteering g s) deltaTime).written.currentGear
      = (updateCarPhysicsLines env g deltaTime).written.currentGear ∧
    (updateCarPhysicsLines env (setSteering g s) deltaTime).written.engineRPM
      = (updateCarPhysicsLines env g deltaTime).written.engineRPM ∧
    (g.carRoot ≠ none → (updateCarPhysicsLines env g deltaTime).thrown = none →
      (updateCarPhysicsLines env g deltaTime).written.steering
        = steeringUpdate g.physics g.carState.steering g.keys
            (speedOf env g.carState.velocity) ∧
      (updateCarPhysicsLines env g deltaTime).written.wheelAngles
        = ((g.carState.wheelAngles.map JSNum.fin).set 0
            (leftSteer env.math env.maxSteer g.physics
              (steeringUpdate g.physics g.carState.steering g.keys
                (speedOf env g.carState.velocity)))).set 1
            (rightSteer env.math env.maxSteer g.physics
              (steeringUpdate g.physics g.carState.steering g.keys
                (speedOf env g.carState.velocity)))) ∧
    (updateCarPhysicsLines (sourceEnv env.math env.sqrt env.maxSteer env.wheelChild) g
        deltaTime).written = Written.init g ∧
    (updateCarPhysicsLines (sourceEnv env.math env.sqrt env.maxSteer env.wheelChild)
        (setSteering g s) deltaTime).written
      = (Written.init g).setSteer s (Written.init g).wheelAngles := by
  obtain ⟨s', l', hs⟩ := updateCarPhysicsLines_steerOnly env g s deltaTime
  refine ⟨by rw [hs], by rw [hs]; rfl, by rw [hs]; rfl, by rw [hs]; rfl, by rw [hs]; rfl,
    by rw [hs]; rfl, ?_, ?_, ?_⟩
  · intro hroot hthrown
    unfold updateCarPhysicsLines at hthrown ⊢
    cases hc : g.carRoot with
    | none => exact absurd hc hroot
    | some p =>
      rw [hc] at hthrown
      simp only at hthrown ⊢
      exact runLines_dataflow env g deltaTime (Written.init g) hthrown
  · rw [updateCarPhysicsLines_source _ _ _ _ g deltaTime 0]
  · rw [updateCarPhysicsLines_source _ _ _ _ (setSteering g s) deltaTime 0]
    rfl

/-- C17 on the loaded initial object with a frame of 16 ms, in an environment
where every read yields zero and the model has no wheel child: the step runs
to its end, and the steering data flow applies. -/
theorem steering_does_not_influence_motion_witness :
    (loadedGame : Game ℝ).carRoot ≠ none ∧
    (updateCarPhysicsLines
        (⟨⟨Real.sin, Real.tan, Real.arctan, fun y x => Complex.arg ⟨x, y⟩, Real.pi / 2⟩,
          Real.sqrt, Real.pi / 4, false, some ⟨.fin 0, .fin 0, .fin 0⟩, none,
          some (.fin 0), some (.fin 0), some (.fin 0)⟩ : Env ℝ)
        (loadedGame : Game ℝ) (.fin 0.016)).thrown = none ∧
    (updateCarPhysicsLines
        (⟨⟨Real.sin, Real.tan, Real.arctan, fun y x => Complex.arg ⟨x, y⟩, Real.pi / 2⟩,
          Real.sqrt, Real.pi / 4, false, some ⟨.fin 0, .fin 0, .fin 0⟩, none,
          some (.fin 0), some (.fin 0), some (.fin 0)⟩ : Env ℝ)
        (loadedGame : Game ℝ) (.fin 0.016)).written.steering
      = steeringUpdate (loadedGame : Game ℝ).physics (loadedGame : Game ℝ).carState.steering
          (loadedGame : Game ℝ).keys
          (speedOf
            (⟨⟨Real.sin, Real.tan, Real.arctan, fun y x => Complex.arg ⟨x, y⟩, Real.pi / 2⟩,
              Real.sqrt, Real.pi / 4, false, some ⟨.fin 0, .fin 0, .fin 0⟩, none,
              some (.fin 0), some (.fin 0), some (.fin 0)⟩ : Env ℝ)
            (loadedGame : Game ℝ).carState.velocity) := by
  have hroot : (loadedGame : Game ℝ).carRoot ≠ none := by simp [loadedGame]
  have hfour : (suspensionForces (loadedGame : Game ℝ).physics
      (loadedGame : Game ℝ).carState).length = 4 := by
    simp [suspensionForces, loadedGame, initialGame, initialCarState]
  have hthrown : (updateCarPhysicsLines
        (⟨⟨Real.sin, Real.tan, Real.arctan, fun y x => Complex.arg ⟨x, y⟩, Real.pi / 2⟩,
          Real.sqrt, Real.pi / 4, false, some ⟨.fin 0, .fin 0, .fin 0⟩, none,
          some (.fin 0), some (.fin 0), some (.fin 0)⟩ : Env ℝ)
        (loadedGame : Game ℝ) (.fin 0.016)).thrown = none := by
    unfold updateCarPhysicsLines
    have hc : (loadedGame : Game ℝ).carRoot = some (⟨10, 0, 0⟩, ⟨0, 0, 0⟩) := rfl
    rw [hc]
    exact runLines_completes _ _ _ _ (by simp) rfl (by simp) (by simp) (by simp) hfour
  exact ⟨hroot, hthrown,
    ((steering_does_not_influence_motion _ (loadedGame : Game ℝ) 0 (.fin 0.016)).2.2.2.2.2.2.1
      hroot hthrown).1⟩

/-! ### Frame time -/

theorem animateDeltaTime_fin (l t : α) :
    animateDeltaTime (.fin l) (some t) = .fin (min (t * 0.001 - l) 0.1) := by
  simp [animateDeltaTime, currentTime, JSNum.sub, JSNum.neg, JSNum.add, JSNum.min,
    sub_eq_add_neg]

theorem min_tenth_not_gt (x : JSNum α) :
    ¬ JSNum.Lt (.fin 0.1) (JSNum.min x (.fin 0.1)) ∧
    (JSNum.min x (.fin 0.1) = .nan ∨ JSNum.Le (JSNum.min x (.fin 0.1)) (.fin 0.1)) := by
  cases x with
  | fin v =>
    simp only [JSNum.min, JSNum.Lt, JSNum.Le]
    exact ⟨not_lt.2 (min_le_right _ _), Or.inr (min_le_right _ _)⟩
  | posInf =>
    simp only [JSNum.min, JSNum.Lt, JSNum.Le]
    exact ⟨lt_irrefl _, Or.inr le_rfl⟩
  | negInf =>
    simp only [JSNum.min, JSNum.Lt, JSNum.Le]
    exact ⟨not_false, Or.inr trivial⟩
  | nan =>
    simp only [JSNum.min, JSNum.Lt]
    exact ⟨not_false, Or.inl trivial⟩

theorem integrateFirst_velocity_x (env : Env ℝ) (a : Vec3 (JSNum ℝ))
    (ha : env.acceleration = some a) (hx : a.x = .fin 1) (hsqrt : env.sqrt = Real.sqrt)
    (d : ℝ) :
    (integrateFirst env (loadedGame : Game ℝ) (.fin d)
        (Written.init (loadedGame : Game ℝ))).written.velocity.x
      = .fin ((0 + 1 * d) * (1 - (12 * 0.1 + 0.4 * 0 * 0.01) * d)) := by
  unfold integrateFirst
  rw [ha]
  simp [steer, dampFirst, addAcceleration, Vec3.addJS, Vec3.multiplyScalarJS, hx, JSNum.add,
    JSNum.mul, JSNum.sub, JSNum.neg, speedOf, hsqrt, Written.init, Vec3.toJS, loadedGame,
    initialGame, initialCarState, defaultPhysics, sub_eq_add_neg]

/-- The statement-by-statement step reads `deltaTime`: where the read of
`acceleration` (line 562) yields `(1, 0, 0)` and the other reads throw, the
loaded initial object gets the velocity component `x = d * (1 - 1.2 * d)`
from a frame of `d` seconds, which is `0.088` for `d = 0.1` and `0.047` for
`d = 0.05`. -/
theorem updateCarPhysicsLines_reads_deltaTime (d : ℝ) :
    (updateCarPhysicsLines
        (⟨⟨Real.sin, Real.tan, Real.arctan, fun y x => Complex.arg ⟨x, y⟩, Real.pi / 2⟩,
          Real.sqrt, Real.pi / 4, false, some ⟨.fin 1, .fin 0, .fin 0⟩, none,
          none, none, none⟩ : Env ℝ)
        (loadedGame : Game ℝ) (.fin d)).written.velocity.x
      = .fin ((0 + 1 * d) * (1 - (12 * 0.1 + 0.4 * 0 * 0.01) * d)) ∧
    ((0 : ℝ) + 1 * 0.1) * (1 - (12 * 0.1 + 0.4 * 0 * 0.01) * 0.1) = 0.088 ∧
    ((0 : ℝ) + 1 * 0.05) * (1 - (12 * 0.1 + 0.4 * 0 * 0.01) * 0.05) = 0.047 := by
  refine ⟨?_, by norm_num, by norm_num⟩
  have hfour : (suspensionForces (loadedGame : Game ℝ).physics
      (loadedGame : Game ℝ).carState).length = 4 := by
    simp [suspensionForces, loadedGame, initialGame, initialCarState]
  obtain ⟨aa, haa⟩ := angularAcceleration_of_four (loadedGame : Game ℝ).physics
    (tireForcesOf
      (⟨⟨Real.sin, Real.tan, Real.arctan, fun y x => Complex.arg ⟨x, y⟩, Real.pi / 2⟩,
        Real.sqrt, Real.pi / 4, false, some ⟨.fin 1, .fin 0, .fin 0⟩, none,
        none, none, none⟩ : Env ℝ) (loadedGame : Game ℝ))
    (by rw [tireForcesOf_length, hfour])
  have h1 := integrateFirst_velocity_x
    (⟨⟨Real.sin, Real.tan, Real.arctan, fun y x => Complex.arg ⟨x, y⟩, Real.pi / 2⟩,
      Real.sqrt, Real.pi / 4, false, some ⟨.fin 1, .fin 0, .fin 0⟩, none,
      none, none, none⟩ : Env ℝ) ⟨.fin 1, .fin 0, .fin 0⟩ rfl rfl rfl d
  have hc : (loadedGame : Game ℝ).carRoot = some (⟨10, 0, 0⟩, ⟨0, 0, 0⟩) := rfl
  unfold updateCarPhysicsLines
  rw [hc]
  simp only
  rw [← h1]
  simp [runLines, StepResult.andThen, integrateFirst, rotateAndMoveFirst, turnWheelsFirst,
    engineFirst, updateEngineRPM, haa, rotateFirst, movePosition, addAngular]

/-- C10: the `deltaTime` that `animate` passes to `updateCarPhysics` is
`Math.min(time * 0.001 - lastTime, 0.1)`; for every `lastTime` and `time`
(also `NaN` or `undefined`) the comparison `deltaTime > 0.1` is false, and
`deltaTime` is `NaN` or at most `0.1`; for numbers it is the number
`min(elapsed, 0.1)`.  `animate` assigns `currentTime` to `lastTime` and calls
the physics step with that `deltaTime`.  A frame with `elapsed = 5` and a
frame with `elapsed = 0.1` pass the same `deltaTime = 0.1` and get the same
result of the physics step, whatever the reads of the undefined identifiers
yield; the step does read `deltaTime`: where line 562 reads `(1, 0, 0)`, frames
of `0.1` and `0.05` seconds give the velocity components `0.088` and `0.047`.
(With `time` undefined, as in the call of line 96, or `lastTime` `NaN`,
`deltaTime` is `NaN`.) -/
theorem deltaTime_clamp (env : Env α) (g : Game α) (lastTime : JSNum α) (time : Option α)
    (l t timeA timeB : α) :
    animateDeltaTime lastTime time
      = JSNum.min (JSNum.sub (currentTime time) lastTime) (.fin 0.1) ∧
    ¬ JSNum.Lt (.fin 0.1) (animateDeltaTime lastTime time) ∧
    (animateDeltaTime lastTime time = .nan ∨
      JSNum.Le (animateDeltaTime lastTime time) (.fin 0.1)) ∧
    animateDeltaTime (.fin l) (some t) = .fin (min (t * 0.001 - l) 0.1) ∧
    min (t * 0.001 - l) 0.1 ≤ 0.1 ∧
    (animate env g lastTime time).lastTime = currentTime time ∧
    (animate env g lastTime time).step
      = updateCarPhysicsLines env g (animateDeltaTime lastTime time) ∧
    (timeA * 0.001 - l = 5 → timeB * 0.001 - l = 0.1 →
      animateDeltaTime (.fin l) (some timeA) = .fin 0.1 ∧
      animateDeltaTime (.fin l) (some timeB) = .fin 0.1 ∧
      (animate env g (.fin l) (some timeA)).step
        = (animate env g (.fin l) (some timeB)).step) ∧
    animateDeltaTime lastTime none = .nan ∧
    animateDeltaTime .nan time = .nan ∧
    (updateCarPhysicsLines
        (⟨⟨Real.sin, Real.tan, Real.arctan, fun y x => Complex.arg ⟨x, y⟩, Real.pi / 2⟩,
          Real.sqrt, Real.pi / 4, false, some ⟨.fin 1, .fin 0, .fin 0⟩, none,
          none, none, none⟩ : Env ℝ)
        (loadedGame : Game ℝ) (.fin 0.1)).written.velocity.x = .fin 0.088 ∧
    (updateCarPhysicsLines
        (⟨⟨Real.sin, Real.tan, Real.arctan, fun y x => Complex.arg ⟨x, y⟩, Real.pi / 2⟩,
          Real.sqrt, Real.pi / 4, false, some ⟨.fin 1, .fin 0, .fin 0⟩, none,
          none, none, none⟩ : Env ℝ)
        (loadedGame : Game ℝ) (.fin 0.05)).written.velocity.x = .fin 0.047 := by
  have hnot := min_tenth_not_gt (JSNum.sub (currentTime time) lastTime)
  have hd1 := updateCarPhysicsLines_reads_deltaTime 0.1
  have hd2 := updateCarPhysicsLines_reads_deltaTime 0.05
  refine ⟨rfl, hnot.1, hnot.2, animateDeltaTime_fin l t, min_le_right _ _, rfl, rfl, ?_, ?_, ?_,
    by rw [hd1.1, hd1.2.1], by rw [hd2.1, hd2.2.2]⟩
  · intro hA hB
    have h1 : animateDeltaTime (.fin l) (some timeA) = .fin 0.1 := by
      rw [animateDeltaTime_fin, hA, min_eq_right (by norm_num)]
    have h2 : animateDeltaTime (.fin l) (some timeB) = .fin 0.1 := by
      rw [animateDeltaTime_fin, hB, min_eq_right le_rfl]
    refine ⟨h1, h2, ?_⟩
    unfold animate
    simp only
    rw [h1, h2]
  · cases lastTime <;> rfl
  · cases time <;> rfl

/-- C10 from the loaded initial object with `lastTime = 0` and the timestamps
5000 ms and 100 ms, with the reads of the source. -/
theorem deltaTime_clamp_witness :
    animateDeltaTime (.fin (0 : ℝ)) (some 5000) = .fin 0.1 ∧
    animateDeltaTime (.fin (0 : ℝ)) (some 100) = .fin 0.1 ∧
    (animate
        (sourceEnv
          ⟨Real.sin, Real.tan, Real.arctan, fun y x => Complex.arg ⟨x, y⟩, Real.pi / 2⟩
          Real.sqrt (Real.pi / 4) true)
        (loadedGame : Game ℝ) (.fin 0) (some 5000)).step
      = (animate
        (sourceEnv
          ⟨Real.sin, Real.tan, Real.arctan, fun y x => Complex.arg ⟨x, y⟩, Real.pi / 2⟩
          Real.sqrt (Real.pi / 4) true)
        (loadedGame : Game ℝ) (.fin 0) (some 100)).step :=
  (deltaTime_clamp
    (sourceEnv
      ⟨Real.sin, Real.tan, Real.arctan, fun y x => Complex.arg ⟨x, y⟩, Real.pi / 2⟩
      Real.sqrt (Real.pi / 4) true)
    (loadedGame : Game ℝ) (.fin 0) (some 5000) 0 5000 5000 100).2.2.2.2.2.2.2.1
    (by norm_num) (by norm_num)

end Theorems

end CarGame
